import Mathlib

/-! Counter sampling engine (rocprofilerclient)

A shallow embedding of `src/rocprofilerclient/rocpclient.cpp` and
`src/rocprofilerclient/RocpCounterSampler.h`.

* The rocprofiler SDK is external to the repository.  It is taken as a parameter: a
  `Backend` gives, for every SDK entry point the sampler calls, the response as a function
  of the history of all earlier SDK calls (with their responses) and of the arguments.
  Every SDK call made by the embedded code is recorded in that history, most recent first.
* C++ exceptions are `Except String`; state that a throwing member function has already
  mutated is returned next to the error.
* `std::map` / `std::unordered_map` are association lists with `find` and `emplace`
  (`emplace` never overwrites an existing key).
* `size_t` arithmetic is taken modulo `2 ^ 64`; opaque 64-bit handles are `Nat`.
* `std::vector::resize` to a size beyond `max_size()` throws `std::length_error`; an
  allocation within `max_size()` is taken to succeed.
* `double` is an arbitrary carrier `V` with `0` and `+`; the code only adds values up.
* `ROCP_LOG` (diagnostics on `std::clog`) is not modelled.
-/

namespace Rocp

/-! ## SDK constants and plain data -/

/-- The SDK status type `rocprofiler_status_t`. -/
abbrev Status := Nat

/-- The SDK success status. -/
def ROCPROFILER_STATUS_SUCCESS : Status := 0

/-- The SDK agent type tag of a GPU (`rocprofiler_agent_type_t`). -/
def ROCPROFILER_AGENT_TYPE_GPU : Nat := 2

/-- The SDK agent info version tag expected by `get_available_agents`. -/
def ROCPROFILER_AGENT_INFO_VERSION_0 : Nat := 1

/-- Width of `size_t`. -/
def SIZE_MOD : Nat := 2 ^ 64

/-- Width of `uint32_t`. -/
def U32_MOD : Nat := 2 ^ 32

/-- The fields of `rocprofiler_record_dimension_info_t`. -/
structure DimInfo where
  name : String
  instance_size : Nat
  id : Nat
deriving DecidableEq, Repr

/-- The fields of `rocprofiler_agent_v0_t` that the code reads. -/
structure Agent where
  type : Nat
  id : Nat
deriving DecidableEq, Repr

/-- The fields of `rocprofiler_record_counter_t` that the code reads. -/
structure Record (V : Type) where
  id : Nat
  counter_value : V
deriving DecidableEq, Repr

/-- A value-initialised record, as `std::vector::resize` appends. -/
def Record.zero {V : Type} [Zero V] : Record V := { id := 0, counter_value := 0 }

/-! ## Containers -/

/-- The `find` of `std::map` / `std::unordered_map`. -/
def mapFind {K W : Type} [DecidableEq K] : List (K × W) → K → Option W
  | [], _ => none
  | (k, v) :: rest, key => if k = key then some v else mapFind rest key

/-- The `emplace` of `std::map` / `std::unordered_map`: inserts only when the key is
absent. -/
def mapEmplace {K W : Type} [DecidableEq K] (m : List (K × W)) (key : K) (v : W) :
    List (K × W) :=
  match mapFind m key with
  | some _ => m
  | none => m ++ [(key, v)]

/-- The `resize` of `std::vector`: truncate, or pad with value-initialised elements. -/
def resize {α : Type} (dflt : α) (v : List α) (n : Nat) : List α :=
  v.take n ++ List.replicate (n - v.length) dflt

/-- What a buffer holds after the backend wrote `written` from its start: the buffer keeps
its length, cells that were not written keep their content. -/
def overlay {α : Type} (written buf : List α) : List α :=
  written.take buf.length ++ buf.drop written.length

/-! ## The backend and the history of SDK calls -/

/-- One SDK call with its arguments and its response. -/
inductive Event (V : Type) where
  | create_context (status : Status) (ctx : Nat)
  | configure_device_counting_service (ctx agent : Nat) (status : Status)
  | query_available_agents (status : Status) (batches : List (Nat × List Agent))
  | iterate_agent_supported_counters (agent : Nat) (status : Status)
      (batches : List (List Nat))
  | query_counter_info (counter : Nat) (status : Status) (name : String)
  | iterate_counter_dimensions (counter : Nat) (status : Status)
      (batches : List (List DimInfo))
  | create_profile_config (agent : Nat) (counters : List Nat) (status : Status)
      (handle : Nat)
  | start_context (ctx : Nat) (profile : Option Nat) (status : Status)
  | usleep (duration : Nat)
  | sample_device_counting_service (ctx : Nat) (buf : List (Record V)) (status : Status)
      (written : List (Record V)) (out_size : Nat)
  | stop_context (ctx : Nat) (status : Status)
  | query_record_counter_id (record_id : Nat) (status : Status) (counter : Nat)

/-- The history of SDK calls of the process, most recent first. -/
abbrev World (V : Type) := List (Event V)

/-- The rocprofiler SDK as seen by the sampler.  Callback-style enumerations answer with the
list of arrays the callback is invoked with, in order.  `start_context` is given the profile
that the registered `set_profile` callback would hand over.  `create_profile_config` answers
with the status and the value of `profile.handle` after the call.
`sample_device_counting_service` answers with the status, the records written from the start
of the buffer and the value of `out_size` after the call.  The last field is the one constant
of the C++ runtime the sampler depends on, which the size of the SDK's record type fixes:
`max_size()` of `std::vector<rocprofiler_record_counter_t>`. -/
structure Backend (V : Type) where
  create_context : World V → Status × Nat
  configure_device_counting_service : World V → Nat → Nat → Status
  query_available_agents : World V → Status × List (Nat × List Agent)
  iterate_agent_supported_counters : World V → Nat → Status × List (List Nat)
  query_counter_info : World V → Nat → Status × String
  iterate_counter_dimensions : World V → Nat → Status × List (List DimInfo)
  create_profile_config : World V → Nat → List Nat → Status × Nat
  start_context : World V → Nat → Option Nat → Status
  sample_device_counting_service :
    World V → Nat → List (Record V) → Status × List (Record V) × Nat
  stop_context : World V → Nat → Status
  query_record_counter_id : World V → Nat → Status × Nat
  record_vector_max_size : Nat

/-- The helper `RocprofilerCall`: throws when the SDK call did not return success.  The text
of the exception, which in the code also carries the call site and the status string of the
SDK, is shortened to the message followed by the word failure. -/
def RocprofilerCall (result : Status) (msg : String) : Except String Unit :=
  if result ≠ ROCPROFILER_STATUS_SUCCESS then .error (msg ++ " failure") else .ok ()

/-! ## CounterSampler -/

/-- The data members of `CounterSampler` (`buf_` is never used). -/
structure CounterSampler where
  agent_ : Nat
  ctx_ : Nat
  profile_ : Nat
  cached_profiles_ : List (List String × Nat)
  profile_sizes_ : List (Nat × Nat)
deriving DecidableEq, Repr

/-- The member `CounterSampler::set_profile`: the profile handed to the SDK callback, none while
`profile_.handle` is `0`. -/
def set_profile (s : CounterSampler) : Option Nat :=
  if s.profile_ ≠ 0 then some s.profile_ else none

/-- The constructor `CounterSampler::CounterSampler(agent)`. -/
def construct {V : Type} (B : Backend V) (w : World V) (agent : Nat) :
    Except String CounterSampler × World V :=
  let r := B.create_context w
  let w1 := Event.create_context r.1 r.2 :: w
  match RocprofilerCall r.1 "context creation failed" with
  | .error e => (.error e, w1)
  | .ok _ =>
    let st := B.configure_device_counting_service w1 r.2 agent
    let w2 := Event.configure_device_counting_service r.2 agent st :: w1
    match RocprofilerCall st "Could not setup buffered service" with
    | .error e => (.error e, w2)
    | .ok _ =>
      (.ok { agent_ := agent, ctx_ := r.2, profile_ := 0,
             cached_profiles_ := [], profile_sizes_ := [] }, w2)

/-- The callback of `get_counter_size`, for one array of dimensions. -/
def mul_dims (size : Nat) : List DimInfo → Nat
  | [] => size
  | d :: rest => mul_dims ((size * d.instance_size) % SIZE_MOD) rest

/-- The callback of `get_counter_size` over all its invocations. -/
def mul_batches (size : Nat) : List (List DimInfo) → Nat
  | [] => size
  | b :: rest => mul_batches (mul_dims size b) rest

/-- The member `CounterSampler::get_counter_size`; the status of the SDK call is not looked
at. -/
def get_counter_size {V : Type} (B : Backend V) (w : World V) (counter : Nat) :
    Nat × World V :=
  let r := B.iterate_counter_dimensions w counter
  (mul_batches 1 r.2, Event.iterate_counter_dimensions counter r.1 r.2 :: w)

/-- The callback of `get_supported_counters` over all its invocations. -/
def push_batches (vec : List Nat) : List (List Nat) → List Nat
  | [] => vec
  | b :: rest => push_batches (vec ++ b) rest

/-- The loop of `get_supported_counters` that names every enumerated counter. -/
def name_counters {V : Type} (B : Backend V) :
    World V → List Nat → List (String × Nat) → Except String (List (String × Nat)) × World V
  | w, [], out => (.ok out, w)
  | w, counter :: rest, out =>
    let r := B.query_counter_info w counter
    let w1 := Event.query_counter_info counter r.1 r.2 :: w
    match RocprofilerCall r.1 "Could not query info for counter" with
    | .error e => (.error e, w1)
    | .ok _ => name_counters B w1 rest (mapEmplace out r.2 counter)

/-- The static member `CounterSampler::get_supported_counters`. -/
def get_supported_counters {V : Type} (B : Backend V) (w : World V) (agent : Nat) :
    Except String (List (String × Nat)) × World V :=
  let r := B.iterate_agent_supported_counters w agent
  let w1 := Event.iterate_agent_supported_counters agent r.1 r.2 :: w
  match RocprofilerCall r.1 "Could not fetch supported counters" with
  | .error e => (.error e, w1)
  | .ok _ => name_counters B w1 (push_batches [] r.2) []

/-- What `sample_counter_values` leaves behind: whether it threw, the sampler, the history of
SDK calls and the `out` vector. -/
structure SampleResult (V : Type) where
  result : Except String Unit
  sampler : CounterSampler
  world : World V
  out : List (Record V)

/-- The name-resolution loop of `sample_counter_values` (names that are not supported are
skipped). -/
def resolve_counters {V : Type} (B : Backend V) (roc_counters : List (String × Nat)) :
    World V → List String → List Nat → Nat → List Nat × Nat × World V
  | w, [], gpu_counters, expected_size => (gpu_counters, expected_size, w)
  | w, counter :: rest, gpu_counters, expected_size =>
    match mapFind roc_counters counter with
    | none => resolve_counters B roc_counters w rest gpu_counters expected_size
    | some id =>
      let r := get_counter_size B w id
      resolve_counters B roc_counters r.2 rest (gpu_counters ++ [id])
        ((expected_size + r.1) % SIZE_MOD)

/-- The second half of `sample_counter_values`, from the look-up in `profile_sizes_` on.
The first `out.resize` throws `std::length_error` when the size is beyond `max_size()`,
before `profile_` is assigned (the text is the one of libstdc++; an allocation within
`max_size()` is taken to succeed).  The statuses of start, sample and stop are not looked at.
The last `out.resize` is given the count the SDK reports, which the model lets be any number
and takes to be within `max_size()`. -/
def sample_cached {V : Type} [Zero V] (B : Backend V) (s : CounterSampler) (w : World V)
    (profile : Nat) (out : List (Record V)) (duration : Nat) : SampleResult V :=
  match mapFind s.profile_sizes_ profile with
  | none => ⟨.error "Profile handle not found in profile_sizes_", s, w, out⟩
  | some size =>
    if B.record_vector_max_size < size then ⟨.error "vector::_M_default_append", s, w, out⟩
    else
    let buf := resize Record.zero out size
    let s1 := { s with profile_ := profile }
    let st := B.start_context w s1.ctx_ (set_profile s1)
    let w1 := Event.start_context s1.ctx_ (set_profile s1) st :: w
    let w2 := Event.usleep duration :: w1
    let r := B.sample_device_counting_service w2 s1.ctx_ buf
    let w3 := Event.sample_device_counting_service s1.ctx_ buf r.1 r.2.1 r.2.2 :: w2
    let sp := B.stop_context w3 s1.ctx_
    let w4 := Event.stop_context s1.ctx_ sp :: w3
    ⟨.ok (), s1, w4, resize Record.zero (overlay r.2.1 buf) r.2.2⟩

/-- The member `CounterSampler::sample_counter_values`. -/
def sample_counter_values {V : Type} [Zero V] (B : Backend V) (s : CounterSampler)
    (w : World V) (counters : List String) (out : List (Record V)) (duration : Nat) :
    SampleResult V :=
  match mapFind s.cached_profiles_ counters with
  | some profile => sample_cached B s w profile out duration
  | none =>
    let sup := get_supported_counters B w s.agent_
    match sup.1 with
    | .error e => ⟨.error e, s, sup.2, out⟩
    | .ok roc_counters =>
      let res := resolve_counters B roc_counters sup.2 counters [] 0
      let cr := B.create_profile_config res.2.2 s.agent_ res.1
      let w2 := Event.create_profile_config s.agent_ res.1 cr.1 cr.2 :: res.2.2
      match RocprofilerCall cr.1 "Could not create profile" with
      | .error e => ⟨.error e, s, w2, out⟩
      | .ok _ =>
        let s1 := { s with
          cached_profiles_ := mapEmplace s.cached_profiles_ counters cr.2
          profile_sizes_ := mapEmplace s.profile_sizes_ cr.2 res.2.1 }
        match mapFind s1.cached_profiles_ counters with
        | some profile => sample_cached B s1 w2 profile out duration
        | none => ⟨.error "end iterator dereferenced", s1, w2, out⟩

/-- The initialiser of the function-local static of `decode_record_name`: the reverse of the
name-to-identifier mapping. -/
def build_id_to_name : List (String × Nat) → List (Nat × String) → List (Nat × String)
  | [], id_to_name => id_to_name
  | (name, id) :: rest, id_to_name => build_id_to_name rest (mapEmplace id_to_name id name)

/-- What `decode_record_name` leaves behind: the name or the exception, the function-local
static `roc_counters` (one per process; none while it is not initialised) and the history
of SDK calls. -/
structure DecodeResult (V : Type) where
  result : Except String String
  roc_counters : Option (List (Nat × String))
  world : World V

/-- The member `CounterSampler::decode_record_name`.  The static `roc_counters` is initialised by the
first call that gets through the initialiser, from the `agent_` of the sampler that makes
that call; an initialiser that throws leaves it uninitialised. -/
def decode_record_name {V : Type} (B : Backend V) (s : CounterSampler)
    (roc_counters : Option (List (Nat × String))) (w : World V) (rec : Record V) :
    DecodeResult V :=
  let init : Except String (List (Nat × String)) × World V :=
    match roc_counters with
    | some m => (.ok m, w)
    | none =>
      let sup := get_supported_counters B w s.agent_
      match sup.1 with
      | .error e => (.error e, sup.2)
      | .ok name_to_id => (.ok (build_id_to_name name_to_id []), sup.2)
  match init.1 with
  | .error e => ⟨.error e, none, init.2⟩
  | .ok m =>
    let q := B.query_record_counter_id init.2 rec.id
    let w1 := Event.query_record_counter_id rec.id q.1 q.2 :: init.2
    match mapFind m q.2 with
    | none => ⟨.error "Counter handle not found in roc_counters", some m, w1⟩
    | some name => ⟨.ok name, some m, w1⟩

/-- The inner loop of the callback of `get_available_agents`: keeps the GPU agents. -/
def collect_agents : List Agent → List Agent → List Agent
  | agents, [] => agents
  | agents, a :: rest =>
    if a.type = ROCPROFILER_AGENT_TYPE_GPU then collect_agents (agents ++ [a]) rest
    else collect_agents agents rest

/-- The callback of `get_available_agents` over all its invocations; it throws on an
unexpected version. -/
def iterate_cb : List Agent → List (Nat × List Agent) → Except String (List Agent)
  | agents, [] => .ok agents
  | agents, (agents_ver, arr) :: rest =>
    if agents_ver ≠ ROCPROFILER_AGENT_INFO_VERSION_0 then
      .error "unexpected rocprofiler agent version"
    else iterate_cb (collect_agents agents arr) rest

/-- The static member `CounterSampler::get_available_agents`. -/
def get_available_agents {V : Type} (B : Backend V) (w : World V) :
    Except String (List Agent) × World V :=
  let r := B.query_available_agents w
  let w1 := Event.query_available_agents r.1 r.2 :: w
  match iterate_cb [] r.2 with
  | .error e => (.error e, w1)
  | .ok agents =>
    match RocprofilerCall r.1 "query available agents" with
    | .error e => (.error e, w1)
    | .ok _ => (.ok agents, w1)

/-! ## The process: sampler registry, statics, report driver -/

/-- The process-wide state: the history of SDK calls, the registry
`CounterSampler::samplers_`, the function-local static of `decode_record_name` and the
`thread_local` vector `records` of `runSample`. -/
structure Process (V : Type) where
  world : World V
  samplers_ : List CounterSampler
  roc_counters : Option (List (Nat × String))
  records : List (Record V)

/-- The loop of `tool_init`: one sampler per agent, appended to the registry. -/
def make_samplers {V : Type} (B : Backend V) :
    World V → List CounterSampler → List Agent →
      Except String Unit × List CounterSampler × World V
  | w, samplers, [] => (.ok (), samplers, w)
  | w, samplers, agent :: rest =>
    match construct B w agent.id with
    | (.error e, w1) => (.error e, samplers, w1)
    | (.ok cs, w1) => make_samplers B w1 (samplers ++ [cs]) rest

/-- The function `tool_init`: the return code, or the exception that escapes it. -/
def tool_init {V : Type} (B : Backend V) (p : Process V) : Except String Int × Process V :=
  match get_available_agents B p.world with
  | (.error e, w1) => (.error e, { p with world := w1 })
  | (.ok agents, w1) =>
    if agents.isEmpty then (.ok (-1), { p with world := w1 })
    else
      match make_samplers B w1 p.samplers_ agents with
      | (.error e, samplers, w2) => (.error e, { p with world := w2, samplers_ := samplers })
      | (.ok _, samplers, w2) => (.ok 0, { p with world := w2, samplers_ := samplers })

/-- The built-in default list of counter names. -/
def all_fields : List String :=
  ["GRBM_GUI_ACTIVE", "SQ_WAVES", "GRBM_COUNT", "GPU_UTIL", "FETCH_SIZE", "WRITE_SIZE",
   "TOTAL_16_OPS", "TOTAL_32_OPS", "TOTAL_64_OPS", "CPC_CPC_STAT_BUSY", "CPC_CPC_STAT_IDLE",
   "CPC_CPC_STAT_STALL", "CPC_CPC_TCIU_BUSY", "CPC_CPC_TCIU_IDLE", "CPC_CPC_UTCL2IU_BUSY",
   "CPC_CPC_UTCL2IU_IDLE", "CPC_CPC_UTCL2IU_STALL", "CPC_ME1_BUSY_FOR_PACKET_DECODE",
   "CPC_ME1_DC0_SPI_BUSY", "CPC_UTCL1_STALL_ON_TRANSLATION", "CPC_ALWAYS_COUNT",
   "CPC_ADC_VALID_CHUNK_NOT_AVAIL", "CPC_ADC_DISPATCH_ALLOC_DONE", "CPC_ADC_VALID_CHUNK_END",
   "CPC_SYNC_FIFO_FULL_LEVEL", "CPC_SYNC_FIFO_FULL", "CPC_GD_BUSY", "CPC_TG_SEND",
   "CPC_WALK_NEXT_CHUNK", "CPC_STALLED_BY_SE0_SPI", "CPC_STALLED_BY_SE1_SPI",
   "CPC_STALLED_BY_SE2_SPI", "CPC_STALLED_BY_SE3_SPI", "CPC_LTE_ALL",
   "CPC_SYNC_WRREQ_FIFO_BUSY", "CPC_CANE_BUSY", "CPC_CANE_STALL",
   "CPF_CMP_UTCL1_STALL_ON_TRANSLATION", "CPF_CPF_STAT_BUSY", "CPF_CPF_STAT_IDLE",
   "CPF_CPF_STAT_STALL", "CPF_CPF_TCIU_BUSY", "CPF_CPF_TCIU_IDLE", "CPF_CPF_TCIU_STALL"]

/-- What `runSample` writes to `std::cout`; a value is kept as a number, not as text. -/
inductive Out (V : Type) where
  | header
  | gpu_open (gpu_index : Nat)
  | sep
  | field (name : String) (value : V)
  | gpu_close
  | comma
  | footer
deriving DecidableEq, Repr

/-- One call of `sample_counter_values` made by `runSample`: the device index, the counter
name, and the records it returned (none when it threw). -/
structure SampleCall (V : Type) where
  gpu_index : Nat
  counter : String
  records : Option (List (Record V))
deriving DecidableEq, Repr

/-- The variables the loop over the metrics of one device works on, with what was written to
`std::cout` and the calls of `sample_counter_values` made so far. -/
structure Loop (V : Type) where
  cs : CounterSampler
  world : World V
  records : List (Record V)
  count : Nat
  stdout : List (Out V)
  calls : List (SampleCall V)

/-- The summation loop of `runSample` over the records of one counter. -/
def sum_records {V : Type} [Add V] (value : V) : List (Record V) → V
  | [] => value
  | record :: rest => sum_records (value + record.counter_value) rest

/-- The loop of `runSample` over the metrics of one device; the flag is false when a
sampling call threw and `runSample` returns `-1`. -/
def metric_loop {V : Type} [Zero V] [Add V] (B : Backend V) (gpu_index : Nat) :
    List String → Loop V → Bool × Loop V
  | [], st => (true, st)
  | metric :: rest, st =>
    let r := sample_counter_values B st.cs st.world [metric] st.records 10
    match r.result with
    | .error _ =>
      (false, { st with cs := r.sampler, world := r.world, records := r.out,
                        calls := st.calls ++ [⟨gpu_index, metric, none⟩] })
    | .ok _ =>
      let st1 : Loop V := { st with cs := r.sampler, world := r.world, records := r.out,
                                    calls := st.calls ++ [⟨gpu_index, metric, some r.out⟩] }
      if r.out.length = 0 then metric_loop B gpu_index rest st1
      else
        let count := (st1.count + 1) % U32_MOD
        let out1 := if count ≠ 1 then st1.stdout ++ [Out.sep] else st1.stdout
        let value := sum_records 0 r.out
        metric_loop B gpu_index rest
          { st1 with count := count, stdout := out1 ++ [Out.field metric value] }

/-- How `runSample` ends: it returns a code, an exception escapes it, or it indexes the
registry out of range (`samplers[gpu_index]` with no sampler there). -/
inductive Outcome where
  | returned (rc : Int)
  | threw (what : String)
  | out_of_range (gpu_index : Nat)
deriving DecidableEq, Repr

/-- What `runSample` leaves behind. -/
structure RunResult (V : Type) where
  outcome : Outcome
  process : Process V
  stdout : List (Out V)
  calls : List (SampleCall V)

/-- The loop of `runSample` over the device indices `0 .. agents.size() - 1`. -/
def gpu_loop {V : Type} [Zero V] [Add V] (B : Backend V) (metrics : List String)
    (n_agents : Nat) :
    List Nat → Process V → List (Out V) → List (SampleCall V) → RunResult V
  | [], p, stdout, calls => ⟨.returned 0, p, stdout ++ [Out.footer], calls⟩
  | gpu_index :: rest, p, stdout, calls =>
    match p.samplers_.get? gpu_index with
    | none => ⟨.out_of_range gpu_index, p, stdout, calls⟩
    | some cs =>
      let r := metric_loop B gpu_index metrics
        ⟨cs, p.world, p.records, 0, stdout ++ [Out.gpu_open gpu_index], calls⟩
      let p1 : Process V := { p with
        world := r.2.world
        samplers_ := p.samplers_.set gpu_index r.2.cs
        records := r.2.records }
      if r.1 = false then ⟨.returned (-1), p1, r.2.stdout, r.2.calls⟩
      else
        let out1 := r.2.stdout ++ [Out.gpu_close]
        let out2 := if gpu_index + 1 ≠ n_agents then out1 ++ [Out.comma] else out1
        gpu_loop B metrics n_agents rest p1 out2 r.2.calls

/-- The static member `CounterSampler::runSample`.  The loop indices are `uint32_t`; the model takes the number
of agents and of metrics to be below `2 ^ 32`. -/
def runSample {V : Type} [Zero V] [Add V] (B : Backend V) (p : Process V)
    (metric_fields : List String) : RunResult V :=
  match get_available_agents B p.world with
  | (.error e, w1) => ⟨.threw e, { p with world := w1 }, [], []⟩
  | (.ok agents, w1) =>
    let metrics := if metric_fields.length = 0 then all_fields else metric_fields
    gpu_loop B metrics agents.length (List.range agents.length) { p with world := w1 }
      [Out.header] []

/-! ## Observations used to state the properties -/

/-- The instance sizes of all the dimensions the backend enumerates, over all callback
invocations, in order. -/
def enumerated_sizes (batches : List (List DimInfo)) : List Nat :=
  batches.flatten.map (fun d => d.instance_size)

/-- Whether an SDK call is a profile creation. -/
def Event.is_create {V : Type} : Event V → Bool
  | .create_profile_config _ _ _ _ => true
  | _ => false

/-- The number of profile creations in a history. -/
def create_count {V : Type} (w : World V) : Nat := w.countP Event.is_create

/-- The profile handles the backend has given out in a history. -/
def issued {V : Type} : World V → List Nat
  | [] => []
  | .create_profile_config _ _ _ handle :: rest => handle :: issued rest
  | _ :: rest => issued rest

/-- Calls of `sample_counter_values` in a row with the same counter names, each with its own
`out` vector and duration: what each call leaves behind, in order. -/
def sample_repeatedly {V : Type} [Zero V] (B : Backend V) (counters : List String) :
    CounterSampler → World V → List (List (Record V) × Nat) → List (SampleResult V)
  | _, _, [] => []
  | s, w, (out, duration) :: rest =>
    let r := sample_counter_values B s w counters out duration
    r :: sample_repeatedly B counters r.sampler r.world rest

/-! ## Test doubles of the backend

Two GPU agents `0` and `1` and one CPU agent.  Agent `0` supports the counters `1` ("A",
dimensions of sizes 4 and 8) and `2` ("B", no dimensions), agent `1` supports `1` only.
Profile handles are 64-bit and fresh: a creation is refused once the next handle would not
fit.  The parameters are the status of profile creation, the status of
start, sample and stop, and what a sample does with a buffer of a given capacity (the records
written and the value left in `out_size`). -/

/-- The family of test doubles. -/
def test_double {V : Type} (create_status window_status : Status)
    (fill : Nat → List (Record V) × Nat) : Backend V where
  create_context w := (ROCPROFILER_STATUS_SUCCESS, w.length + 1)
  configure_device_counting_service _ _ _ := ROCPROFILER_STATUS_SUCCESS
  query_available_agents _ :=
    (ROCPROFILER_STATUS_SUCCESS,
      [(ROCPROFILER_AGENT_INFO_VERSION_0, [⟨ROCPROFILER_AGENT_TYPE_GPU, 0⟩, ⟨1, 7⟩]),
       (ROCPROFILER_AGENT_INFO_VERSION_0, [⟨ROCPROFILER_AGENT_TYPE_GPU, 1⟩])])
  iterate_agent_supported_counters _ agent :=
    (ROCPROFILER_STATUS_SUCCESS, if agent = 0 then [[1], [2]] else if agent = 1 then [[1]] else [])
  query_counter_info _ counter := (ROCPROFILER_STATUS_SUCCESS, if counter = 1 then "A" else "B")
  iterate_counter_dimensions _ counter :=
    (ROCPROFILER_STATUS_SUCCESS, if counter = 1 then [[⟨"X", 4, 0⟩, ⟨"Y", 8, 1⟩]] else [])
  create_profile_config w _ _ :=
    if (issued w).sum + 1 < SIZE_MOD then (create_status, (issued w).sum + 1) else (1, 0)
  start_context _ _ _ := window_status
  sample_device_counting_service _ _ buf :=
    (window_status, (fill buf.length).1, (fill buf.length).2)
  stop_context _ _ := window_status
  query_record_counter_id _ record_id := (ROCPROFILER_STATUS_SUCCESS, record_id)
  record_vector_max_size := (2 ^ 63 - 1) / 40

/-- The test double on which every call succeeds and a sample fills the whole buffer. -/
def demo : Backend Nat :=
  test_double ROCPROFILER_STATUS_SUCCESS ROCPROFILER_STATUS_SUCCESS
    (fun n => (List.replicate n ⟨1, 1⟩, n))

/-- The test double whose start, sample and stop fail: the sample writes nothing and leaves
`out_size` as it was. -/
def demo_window_fails : Backend Nat :=
  test_double ROCPROFILER_STATUS_SUCCESS 1 (fun n => ([], n))

/-- The test double whose profile creation fails. -/
def demo_create_fails : Backend Nat :=
  test_double 1 ROCPROFILER_STATUS_SUCCESS (fun n => (List.replicate n ⟨1, 1⟩, n))

/-- The test double over the rationals whose sample returns three records with the values
`1.5`, `2.5` and `3.0`. -/
def demo_q : Backend ℚ :=
  test_double ROCPROFILER_STATUS_SUCCESS ROCPROFILER_STATUS_SUCCESS
    (fun n => (([⟨1, 1.5⟩, ⟨1, 2.5⟩, ⟨1, 3.0⟩] : List (Record ℚ)).take n, min 3 n))

/-- A sampler of the test double, freshly constructed on agent `0`. -/
def demo_sampler : CounterSampler :=
  { agent_ := 0, ctx_ := 1, profile_ := 0, cached_profiles_ := [], profile_sizes_ := [] }

/-- The states a sampler on `agent` can be in, with the history of SDK calls of the process:
after its construction, after any call of `sample_counter_values` (whether it throws or
not), and after any other SDK call made in the process in between. -/
inductive Reachable {V : Type} [Zero V] (B : Backend V) (agent : Nat) :
    CounterSampler → World V → Prop where
  | construct (w0 : World V) (s : CounterSampler) (h : (construct B w0 agent).1 = .ok s) :
      Reachable B agent s (construct B w0 agent).2
  | sample (s : CounterSampler) (w : World V) (counters : List String)
      (out : List (Record V)) (duration : Nat) (h : Reachable B agent s w) :
      Reachable B agent (sample_counter_values B s w counters out duration).sampler
        (sample_counter_values B s w counters out duration).world
  | other (s : CounterSampler) (w : World V) (e : Event V) (h : Reachable B agent s w) :
      Reachable B agent s (e :: w)

/-- The report entries in what was written to `std::cout`: device index (of the enclosing
device block, the one given at the start while no block was opened), field name and value,
in order. -/
def report_entries {V : Type} : Option Nat → List (Out V) → List (Nat × String × V)
  | _, [] => []
  | _, .gpu_open i :: rest => report_entries (some i) rest
  | some i, .field name value :: rest => (i, name, value) :: report_entries (some i) rest
  | cur, _ :: rest => report_entries cur rest

/-- The device block that is open at the end of a stretch of output. -/
def cur_gpu {V : Type} : Option Nat → List (Out V) → Option Nat
  | cur, [] => cur
  | _, .gpu_open i :: rest => cur_gpu (some i) rest
  | cur, _ :: rest => cur_gpu cur rest

/-- The report entry a sampling call stands for: none when it threw or returned no record,
else the device index, the counter name and the sum of the values of the records, starting
from `0`, added in record order. -/
def SampleCall.entry {V : Type} [Zero V] [Add V] (c : SampleCall V) :
    Option (Nat × String × V) :=
  match c.records with
  | some (r :: rs) =>
    some (c.gpu_index, c.counter,
      ((r :: rs).map (fun x => x.counter_value)).foldl (fun acc x => acc + x) 0)
  | _ => none

/-- The names of the report entries of device `gpu_index`. -/
def entry_names {V : Type} (gpu_index : Nat) (stdout : List (Out V)) : List String :=
  ((report_entries none stdout).filter (fun e => e.1 = gpu_index)).map (fun e => e.2.1)

/-- The sampling calls made on device `gpu_index`. -/
def calls_on {V : Type} (gpu_index : Nat) (calls : List (SampleCall V)) :
    List (SampleCall V) :=
  calls.filter (fun c => c.gpu_index = gpu_index)

/-- Whether a sampling call returned with at least one record. -/
def SampleCall.has_records {V : Type} (c : SampleCall V) : Bool :=
  match c.records with
  | some (_ :: _) => true
  | _ => false

/-- The process of a test double after `tool_init`: one sampler per GPU agent. -/
def demo_process {V : Type} (B : Backend V) : Process V :=
  (tool_init B ⟨[], [], none, []⟩).2

/-- The sizes of the names of a request that resolve in the supported-counter mapping
`roc_counters`, in request order and with repeats, each size being what `get_counter_size`
returns when the name is reached. -/
def resolved_sizes {V : Type} (B : Backend V) (roc_counters : List (String × Nat)) :
    World V → List String → List Nat
  | _, [] => []
  | w, name :: rest =>
    match mapFind roc_counters name with
    | none => resolved_sizes B roc_counters w rest
    | some id =>
      (get_counter_size B w id).1 :: resolved_sizes B roc_counters (get_counter_size B w id).2 rest

/-- The expected record count of a request, in the words of the specification: the sum of
`get_counter_size` over the names of the request that resolve in the supported-counter
mapping. -/
def expected_record_count {V : Type} (B : Backend V) (roc_counters : List (String × Nat))
    (w : World V) (counters : List String) : Nat :=
  (resolved_sizes B roc_counters w counters).sum

/-- The capacity of the buffer handed to the most recent sample operation of a history. -/
def last_sample_capacity {V : Type} : World V → Option Nat
  | [] => none
  | .sample_device_counting_service _ buf _ _ _ :: _ => some buf.length
  | _ :: rest => last_sample_capacity rest

/-- The test double that answers every profile creation with the same handle `7`. -/
def demo_reuses_handle : Backend Nat :=
  { demo with create_profile_config := fun _ _ _ => (ROCPROFILER_STATUS_SUCCESS, 7) }

/-- The test double whose agent enumeration invokes the callback with an agent info version
other than the expected one. -/
def demo_version_mismatch : Backend Nat :=
  { demo with
    query_available_agents := fun _ =>
      (ROCPROFILER_STATUS_SUCCESS, [(0, [⟨ROCPROFILER_AGENT_TYPE_GPU, 0⟩])]) }

/-! # Properties -/

/-! ## Containers: basic facts -/

theorem mapFind_append {K W : Type} [DecidableEq K] (m m2 : List (K × W)) (key : K) :
    mapFind (m ++ m2) key = (mapFind m key).orElse (fun _ => mapFind m2 key) := by
  induction m with
  | nil => simp [mapFind]
  | cons kv rest ih =>
    obtain ⟨k, v⟩ := kv
    by_cases h : k = key
    · simp [mapFind, h]
    · simp [mapFind, h, ih]

theorem mapFind_mapEmplace_self {K W : Type} [DecidableEq K] (m : List (K × W)) (key : K)
    (v : W) : mapFind (mapEmplace m key v) key = some ((mapFind m key).getD v) := by
  unfold mapEmplace
  cases h : mapFind m key with
  | some x => simp [h]
  | none => simp [mapFind_append, h, mapFind]

theorem mapFind_mapEmplace_of_ne {K W : Type} [DecidableEq K] (m : List (K × W))
    (key key2 : K) (v : W) (hne : key ≠ key2) :
    mapFind (mapEmplace m key v) key2 = mapFind m key2 := by
  unfold mapEmplace
  cases h : mapFind m key with
  | some x => simp
  | none =>
    simp only [mapFind_append, mapFind, hne, if_false]
    cases mapFind m key2 <;> simp

theorem mapFind_mapEmplace_of_some {K W : Type} [DecidableEq K] (m : List (K × W))
    (key key2 : K) (v x : W) (h : mapFind m key2 = some x) :
    mapFind (mapEmplace m key v) key2 = some x := by
  by_cases hk : key = key2
  · subst hk
    rw [mapFind_mapEmplace_self, h]; rfl
  · rw [mapFind_mapEmplace_of_ne m key key2 v hk, h]

theorem resize_length {α : Type} (dflt : α) (v : List α) (n : Nat) :
    (resize dflt v n).length = n := by
  simp [resize]
  omega

/-! ## get_counter_size -/

theorem mul_dims_eq (size : Nat) (dims : List DimInfo) :
    mul_dims size dims % SIZE_MOD
      = (size * (dims.map (fun d => d.instance_size)).prod) % SIZE_MOD := by
  induction dims generalizing size with
  | nil => simp [mul_dims]
  | cons d rest ih =>
    simp only [mul_dims, List.map_cons, List.prod_cons]
    rw [ih, Nat.mod_mul_mod, Nat.mul_assoc]

theorem mul_batches_eq (size : Nat) (batches : List (List DimInfo)) :
    mul_batches size batches % SIZE_MOD
      = (size * (enumerated_sizes batches).prod) % SIZE_MOD := by
  induction batches generalizing size with
  | nil => simp [mul_batches, enumerated_sizes]
  | cons b rest ih =>
    simp only [mul_batches]
    rw [ih, ← Nat.mod_mul_mod, mul_dims_eq, Nat.mod_mul_mod]
    simp [enumerated_sizes, Nat.mul_assoc]

theorem mul_dims_lt (size : Nat) (hs : size < SIZE_MOD) (dims : List DimInfo) :
    mul_dims size dims < SIZE_MOD := by
  induction dims generalizing size with
  | nil => simpa [mul_dims] using hs
  | cons d rest ih =>
    simp only [mul_dims]
    exact ih _ (Nat.mod_lt _ (by decide))

theorem mul_batches_lt (size : Nat) (hs : size < SIZE_MOD) (batches : List (List DimInfo)) :
    mul_batches size batches < SIZE_MOD := by
  induction batches generalizing size with
  | nil => simpa [mul_batches] using hs
  | cons b rest ih =>
    simp only [mul_batches]
    exact ih _ (mul_dims_lt size hs b)

/-- C2. `get_counter_size` returns the product of the instance sizes of all the dimensions
the backend enumerates for the counter, in `size_t` arithmetic: the product modulo `2 ^ 64`,
which is the product itself whenever that fits in a `size_t`; it is `1` when no dimension is
enumerated and `32` for the sizes `[4, 8]`. -/
theorem get_counter_size_product {V : Type} (B : Backend V) (w : World V) (counter : Nat) :
    (get_counter_size B w counter).1
        = (enumerated_sizes (B.iterate_counter_dimensions w counter).2).prod % SIZE_MOD
    ∧ ((enumerated_sizes (B.iterate_counter_dimensions w counter).2).prod < SIZE_MOD →
        (get_counter_size B w counter).1
          = (enumerated_sizes (B.iterate_counter_dimensions w counter).2).prod)
    ∧ (enumerated_sizes (B.iterate_counter_dimensions w counter).2 = [] →
        (get_counter_size B w counter).1 = 1)
    ∧ (enumerated_sizes (B.iterate_counter_dimensions w counter).2 = [4, 8] →
        (get_counter_size B w counter).1 = 32) := by
  have key : (get_counter_size B w counter).1
      = (enumerated_sizes (B.iterate_counter_dimensions w counter).2).prod % SIZE_MOD := by
    have h := mul_batches_eq 1 (B.iterate_counter_dimensions w counter).2
    have hlt := mul_batches_lt 1 (by decide) (B.iterate_counter_dimensions w counter).2
    simp only [get_counter_size]
    rw [← Nat.mod_eq_of_lt hlt, h, Nat.one_mul]
  refine ⟨key, ?_, ?_, ?_⟩
  · intro hlt
    rw [key, Nat.mod_eq_of_lt hlt]
  · intro h
    rw [key, h]; decide
  · intro h
    rw [key, h]; decide

/-- C2 on the test double: counter `1` has the dimension sizes `[4, 8]`, its size is `32`. -/
theorem get_counter_size_product_witness :
    enumerated_sizes (demo.iterate_counter_dimensions [] 1).2 = [4, 8]
      ∧ (get_counter_size demo [] 1).1 = 32 :=
  ⟨by decide, (get_counter_size_product demo [] 1).2.2.2 (by decide)⟩

/-! ## Profile creations in the history -/

theorem create_count_cons {V : Type} (e : Event V) (w : World V) :
    create_count (e :: w) = create_count w + (if e.is_create then 1 else 0) := by
  simp [create_count, List.countP_cons]

theorem name_counters_create_count {V : Type} (B : Backend V) (w : World V)
    (counters : List Nat) (out : List (String × Nat)) :
    create_count (name_counters B w counters out).2 = create_count w := by
  induction counters generalizing w out with
  | nil => simp [name_counters]
  | cons c rest ih =>
    simp only [name_counters]
    split
    · simp [create_count_cons, Event.is_create]
    · rw [ih]; simp [create_count_cons, Event.is_create]

theorem get_supported_counters_create_count {V : Type} (B : Backend V) (w : World V)
    (agent : Nat) : create_count (get_supported_counters B w agent).2 = create_count w := by
  simp only [get_supported_counters]
  split
  · simp [create_count_cons, Event.is_create]
  · rw [name_counters_create_count]; simp [create_count_cons, Event.is_create]

theorem resolve_counters_create_count {V : Type} (B : Backend V)
    (roc_counters : List (String × Nat)) (w : World V) (counters : List String)
    (gpu_counters : List Nat) (expected_size : Nat) :
    create_count (resolve_counters B roc_counters w counters gpu_counters expected_size).2.2
      = create_count w := by
  induction counters generalizing w gpu_counters expected_size with
  | nil => simp [resolve_counters]
  | cons c rest ih =>
    simp only [resolve_counters]
    split
    · exact ih _ _ _
    · rw [ih]; simp [get_counter_size, create_count_cons, Event.is_create]

/-! ## sample_counter_values: the two paths -/

theorem sample_cached_of_size {V : Type} [Zero V] (B : Backend V) (s : CounterSampler)
    (w : World V) (profile size : Nat) (out : List (Record V)) (duration : Nat)
    (h : mapFind s.profile_sizes_ profile = some size)
    (hfit : size ≤ B.record_vector_max_size) :
    (sample_cached B s w profile out duration).result = .ok ()
    ∧ (sample_cached B s w profile out duration).sampler = { s with profile_ := profile }
    ∧ create_count (sample_cached B s w profile out duration).world = create_count w := by
  have hnot : ¬ B.record_vector_max_size < size := Nat.not_lt.mpr hfit
  simp [sample_cached, h, hnot, create_count_cons, Event.is_create]

theorem sample_cached_fits {V : Type} [Zero V] (B : Backend V) (s : CounterSampler)
    (w : World V) (profile : Nat) (out : List (Record V)) (duration : Nat)
    (h : (sample_cached B s w profile out duration).result = .ok ()) :
    ∃ size, mapFind s.profile_sizes_ profile = some size
      ∧ size ≤ B.record_vector_max_size := by
  unfold sample_cached at h
  cases hsz : mapFind s.profile_sizes_ profile with
  | none => simp [hsz] at h
  | some size =>
    refine ⟨size, rfl, ?_⟩
    by_contra hbig
    have hlt : B.record_vector_max_size < size := Nat.lt_of_not_le hbig
    simp [hsz, hlt] at h

theorem sample_counter_values_hit {V : Type} [Zero V] (B : Backend V) (s : CounterSampler)
    (w : World V) (counters : List String) (out : List (Record V)) (duration : Nat)
    (profile : Nat) (h : mapFind s.cached_profiles_ counters = some profile) :
    sample_counter_values B s w counters out duration
      = sample_cached B s w profile out duration := by
  simp [sample_counter_values, h]

/-- A call that misses the profile cache and does not throw has created one profile,
stored it under the requested names and made it the active profile. -/
theorem sample_counter_values_miss_ok {V : Type} [Zero V] (B : Backend V)
    (s : CounterSampler) (w : World V) (counters : List String) (out : List (Record V))
    (duration : Nat) (hmiss : mapFind s.cached_profiles_ counters = none)
    (hok : (sample_counter_values B s w counters out duration).result = .ok ()) :
    ∃ profile sizes size,
      (sample_counter_values B s w counters out duration).sampler
        = { s with
            profile_ := profile
            cached_profiles_ := s.cached_profiles_ ++ [(counters, profile)]
            profile_sizes_ := sizes }
      ∧ mapFind sizes profile = some size
      ∧ size ≤ B.record_vector_max_size
      ∧ create_count (sample_counter_values B s w counters out duration).world
        = create_count w + 1 := by
  unfold sample_counter_values at hok ⊢
  simp only [hmiss] at hok ⊢
  cases hsup : (get_supported_counters B w s.agent_).1 with
  | error e => simp [hsup] at hok
  | ok roc_counters =>
    simp only [hsup] at hok ⊢
    have hc := resolve_counters_create_count B roc_counters
      (get_supported_counters B w s.agent_).2 counters [] 0
    generalize resolve_counters B roc_counters (get_supported_counters B w s.agent_).2
      counters [] 0 = res at hok hc ⊢
    cases hcall : RocprofilerCall (B.create_profile_config res.2.2 s.agent_ res.1).1
        "Could not create profile" with
    | error e => simp [hcall] at hok
    | ok u =>
      simp only [hcall] at hok ⊢
      have hfind : mapFind (mapEmplace s.cached_profiles_ counters
          (B.create_profile_config res.2.2 s.agent_ res.1).2) counters
          = some (B.create_profile_config res.2.2 s.agent_ res.1).2 := by
        rw [mapFind_mapEmplace_self, hmiss]; rfl
      simp only [hfind] at hok ⊢
      obtain ⟨size, hsz, hfit⟩ := sample_cached_fits B _ _ _ out duration hok
      simp only at hsz
      obtain ⟨_, h2, h3⟩ := sample_cached_of_size B
        { s with
          cached_profiles_ := mapEmplace s.cached_profiles_ counters
            (B.create_profile_config res.2.2 s.agent_ res.1).2
          profile_sizes_ := mapEmplace s.profile_sizes_
            (B.create_profile_config res.2.2 s.agent_ res.1).2 res.2.1 }
        (Event.create_profile_config s.agent_ res.1
          (B.create_profile_config res.2.2 s.agent_ res.1).1
          (B.create_profile_config res.2.2 s.agent_ res.1).2 :: res.2.2)
        (B.create_profile_config res.2.2 s.agent_ res.1).2 size out duration hsz hfit
      refine ⟨_, _, size, ?_, hsz, hfit, ?_⟩
      · rw [h2]; simp [mapEmplace, hmiss]
      · rw [h3]
        simp [create_count_cons, Event.is_create, hc, get_supported_counters_create_count]

theorem sample_repeatedly_hit {V : Type} [Zero V] (B : Backend V) (counters : List String)
    (profile size : Nat) (args : List (List (Record V) × Nat)) :
    ∀ (s : CounterSampler) (w : World V),
      mapFind s.cached_profiles_ counters = some profile →
      mapFind s.profile_sizes_ profile = some size →
      size ≤ B.record_vector_max_size →
      ∀ r ∈ sample_repeatedly B counters s w args,
        r.result = .ok () ∧ r.sampler.profile_ = profile
        ∧ mapFind r.sampler.cached_profiles_ counters = some profile
        ∧ create_count r.world = create_count w := by
  induction args with
  | nil => intro s w _ _ _ r hr; simp [sample_repeatedly] at hr
  | cons a rest ih =>
    obtain ⟨out, duration⟩ := a
    intro s w hc hs hfit r hr
    obtain ⟨h1, h2, h3⟩ := sample_cached_of_size B s w profile size out duration hs hfit
    rw [← sample_counter_values_hit B s w counters out duration profile hc] at h1 h2 h3
    simp only [sample_repeatedly, List.mem_cons] at hr
    rcases hr with hr | hr
    · subst hr
      exact ⟨h1, by rw [h2], by rw [h2]; exact hc, h3⟩
    · have := ih _ _ (by rw [h2]; exact hc) (by rw [h2]; exact hs) hfit r hr
      rw [h3] at this
      exact this

/-- C1. When a sampler that has not yet cached the counter names `counters` is asked for
them `N ≥ 1` times in a row and the first call goes through (the backend's enumeration and
profile creation succeed), then every one of the `N` calls returns normally with the same
profile handle as active profile, that handle is the one cached for `counters`, and the
number of profile creations in the history of backend calls is, after the first call and
after every later one, exactly one more than before the first call. -/
theorem repeated_sampling_creates_profile_once {V : Type} [Zero V] (B : Backend V)
    (s : CounterSampler) (w : World V) (counters : List String) (out0 : List (Record V))
    (duration0 : Nat) (args : List (List (Record V) × Nat))
    (hmiss : mapFind s.cached_profiles_ counters = none)
    (hok : (sample_counter_values B s w counters out0 duration0).result = .ok ()) :
    ∃ profile, ∀ r ∈ sample_repeatedly B counters s w ((out0, duration0) :: args),
      r.result = .ok () ∧ r.sampler.profile_ = profile
      ∧ mapFind r.sampler.cached_profiles_ counters = some profile
      ∧ create_count r.world = create_count w + 1 := by
  obtain ⟨profile, sizes, size, hs, hsz, hfit, hcnt⟩ :=
    sample_counter_values_miss_ok B s w counters out0 duration0 hmiss hok
  have hfind : mapFind (sample_counter_values B s w counters out0 duration0).sampler.cached_profiles_
      counters = some profile := by
    rw [hs]; simp [mapFind_append, hmiss, mapFind]
  refine ⟨profile, ?_⟩
  intro r hr
  simp only [sample_repeatedly, List.mem_cons] at hr
  rcases hr with hr | hr
  · subst hr
    exact ⟨hok, by rw [hs], hfind, hcnt⟩
  · have := sample_repeatedly_hit B counters profile size args _ _ hfind
      (by rw [hs]; exact hsz) hfit r hr
    rw [hcnt] at this
    exact this

/-- C1 on the test double: three requests of `["A"]` in a row on a fresh sampler. -/
theorem repeated_sampling_creates_profile_once_witness :
    mapFind demo_sampler.cached_profiles_ ["A"] = none
    ∧ (sample_counter_values demo demo_sampler [] ["A"] [] 10).result = .ok ()
    ∧ ∃ profile, ∀ r ∈ sample_repeatedly demo ["A"] demo_sampler []
        [([], 10), ([], 10), ([], 10)],
      r.result = .ok () ∧ r.sampler.profile_ = profile
      ∧ mapFind r.sampler.cached_profiles_ ["A"] = some profile
      ∧ create_count r.world = create_count ([] : World Nat) + 1 :=
  ⟨rfl, rfl,
    repeated_sampling_creates_profile_once demo demo_sampler [] ["A"] [] 10
      [([], 10), ([], 10)] rfl rfl⟩

theorem issued_cons {V : Type} (e : Event V) (w : World V) :
    issued (e :: w) = issued w ∨ ∃ h, issued (e :: w) = h :: issued w := by
  cases e <;> simp [issued]

theorem name_counters_issued {V : Type} (B : Backend V) (w : World V)
    (counters : List Nat) (out : List (String × Nat)) :
    issued (name_counters B w counters out).2 = issued w := by
  induction counters generalizing w out with
  | nil => simp [name_counters]
  | cons c rest ih =>
    simp only [name_counters]
    split
    · simp [issued]
    · rw [ih]; simp [issued]

theorem get_supported_counters_issued {V : Type} (B : Backend V) (w : World V)
    (agent : Nat) : issued (get_supported_counters B w agent).2 = issued w := by
  simp only [get_supported_counters]
  split
  · simp [issued]
  · rw [name_counters_issued]; simp [issued]

theorem resolve_counters_issued {V : Type} (B : Backend V)
    (roc_counters : List (String × Nat)) (w : World V) (counters : List String)
    (gpu_counters : List Nat) (expected_size : Nat) :
    issued (resolve_counters B roc_counters w counters gpu_counters expected_size).2.2
      = issued w := by
  induction counters generalizing w gpu_counters expected_size with
  | nil => simp [resolve_counters]
  | cons c rest ih =>
    simp only [resolve_counters]
    split
    · exact ih _ _ _
    · rw [ih]; simp [get_counter_size, issued]

/-- The second half of `sample_counter_values` touches neither cache and creates no
profile. -/
theorem sample_cached_frame {V : Type} [Zero V] (B : Backend V) (s : CounterSampler)
    (w : World V) (profile : Nat) (out : List (Record V)) (duration : Nat) :
    (sample_cached B s w profile out duration).sampler.cached_profiles_ = s.cached_profiles_
    ∧ (sample_cached B s w profile out duration).sampler.profile_sizes_ = s.profile_sizes_
    ∧ (sample_cached B s w profile out duration).sampler.agent_ = s.agent_
    ∧ (sample_cached B s w profile out duration).sampler.ctx_ = s.ctx_
    ∧ issued (sample_cached B s w profile out duration).world = issued w := by
  unfold sample_cached
  cases mapFind s.profile_sizes_ profile with
  | none => simp
  | some size =>
    by_cases hbig : B.record_vector_max_size < size
    · simp [hbig]
    · simp [hbig, issued]

/-- What a call of `sample_counter_values` does to the caches: either it leaves both as
they were, or it missed the profile cache, the backend created a profile `p` for the
resolved counters and the call appended `counters ↦ p` to the profile cache and emplaced
`p ↦ expected size` into the size cache. -/
theorem sample_counter_values_frame {V : Type} [Zero V] (B : Backend V)
    (s : CounterSampler) (w : World V) (counters : List String) (out : List (Record V))
    (duration : Nat) :
    (sample_counter_values B s w counters out duration).sampler.agent_ = s.agent_
    ∧ (sample_counter_values B s w counters out duration).sampler.ctx_ = s.ctx_
    ∧ (((sample_counter_values B s w counters out duration).sampler.cached_profiles_
          = s.cached_profiles_
        ∧ (sample_counter_values B s w counters out duration).sampler.profile_sizes_
          = s.profile_sizes_
        ∧ (issued (sample_counter_values B s w counters out duration).world = issued w
          ∨ ∃ h, issued (sample_counter_values B s w counters out duration).world
              = h :: issued w))
      ∨ (mapFind s.cached_profiles_ counters = none
        ∧ ∃ roc_counters gpu_counters expected_size w1,
          (get_supported_counters B w s.agent_).1 = .ok roc_counters
          ∧ resolve_counters B roc_counters (get_supported_counters B w s.agent_).2
              counters [] 0 = (gpu_counters, expected_size, w1)
          ∧ issued w1 = issued w
          ∧ (B.create_profile_config w1 s.agent_ gpu_counters).1 = ROCPROFILER_STATUS_SUCCESS
          ∧ (sample_counter_values B s w counters out duration).sampler.cached_profiles_
            = s.cached_profiles_
              ++ [(counters, (B.create_profile_config w1 s.agent_ gpu_counters).2)]
          ∧ (sample_counter_values B s w counters out duration).sampler.profile_sizes_
            = mapEmplace s.profile_sizes_
                (B.create_profile_config w1 s.agent_ gpu_counters).2 expected_size
          ∧ issued (sample_counter_values B s w counters out duration).world
            = (B.create_profile_config w1 s.agent_ gpu_counters).2 :: issued w)) := by
  unfold sample_counter_values
  cases hfind : mapFind s.cached_profiles_ counters with
  | some profile =>
    obtain ⟨h1, h2, h3, h4, h5⟩ := sample_cached_frame B s w profile out duration
    exact ⟨h3, h4, Or.inl ⟨h1, h2, Or.inl h5⟩⟩
  | none =>
    simp only
    cases hsup : (get_supported_counters B w s.agent_).1 with
    | error e =>
      exact ⟨rfl, rfl, Or.inl ⟨rfl, rfl, Or.inl (get_supported_counters_issued B w _)⟩⟩
    | ok roc_counters =>
      simp only
      have hi := resolve_counters_issued B roc_counters
        (get_supported_counters B w s.agent_).2 counters [] 0
      rw [get_supported_counters_issued] at hi
      generalize hres : resolve_counters B roc_counters
        (get_supported_counters B w s.agent_).2 counters [] 0 = res at hi ⊢
      cases hcall : RocprofilerCall (B.create_profile_config res.2.2 s.agent_ res.1).1
          "Could not create profile" with
      | error e =>
        refine ⟨rfl, rfl, Or.inl ⟨rfl, rfl,
          Or.inr ⟨(B.create_profile_config res.2.2 s.agent_ res.1).2, ?_⟩⟩⟩
        simp only [issued, hi]
      | ok u =>
        simp only
        have hst : (B.create_profile_config res.2.2 s.agent_ res.1).1
            = ROCPROFILER_STATUS_SUCCESS := by
          unfold RocprofilerCall at hcall
          by_contra hne
          simp [hne] at hcall
        have hfind2 : mapFind (mapEmplace s.cached_profiles_ counters
            (B.create_profile_config res.2.2 s.agent_ res.1).2) counters
            = some (B.create_profile_config res.2.2 s.agent_ res.1).2 := by
          rw [mapFind_mapEmplace_self, hfind]; rfl
        simp only [hfind2]
        obtain ⟨h1, h2, h3, h4, h5⟩ := sample_cached_frame B
          { s with
            cached_profiles_ := mapEmplace s.cached_profiles_ counters
              (B.create_profile_config res.2.2 s.agent_ res.1).2
            profile_sizes_ := mapEmplace s.profile_sizes_
              (B.create_profile_config res.2.2 s.agent_ res.1).2 res.2.1 }
          (Event.create_profile_config s.agent_ res.1
            (B.create_profile_config res.2.2 s.agent_ res.1).1
            (B.create_profile_config res.2.2 s.agent_ res.1).2 :: res.2.2)
          (B.create_profile_config res.2.2 s.agent_ res.1).2 out duration
        refine ⟨h3, h4, Or.inr ⟨trivial, roc_counters, res.1, res.2.1, res.2.2, rfl,
          by rw [hres], hi, hst, ?_, h2, ?_⟩⟩
        · rw [h1]; simp [mapEmplace, hfind]
        · rw [h5]; simp [issued, hi]

/-! ## Unsupported counter names -/

theorem construct_ok {V : Type} (B : Backend V) (w : World V) (agent : Nat)
    (s : CounterSampler) (h : (construct B w agent).1 = .ok s) :
    s.agent_ = agent ∧ s.profile_ = 0 ∧ s.cached_profiles_ = [] ∧ s.profile_sizes_ = [] := by
  unfold construct at h
  simp only at h
  split at h
  · simp at h
  · split at h
    · simp at h
    · simp only [Except.ok.injEq] at h
      subst h
      simp

theorem demo_fresh (w : World Nat) (a : Nat) (cs : List Nat)
    (hst : (demo.create_profile_config w a cs).1 = ROCPROFILER_STATUS_SUCCESS) :
    (demo.create_profile_config w a cs).2 ∉ issued w := by
  intro hmem
  have hle := List.single_le_sum (fun _ _ => Nat.zero_le _) _ hmem
  simp only [demo, test_double] at hle hst
  by_cases hfit : (issued w).sum + 1 < SIZE_MOD
  · simp only [hfit, if_true] at hle
    omega
  · simp only [hfit, if_false] at hst
    exact absurd hst (by decide)

theorem sum_records_eq_foldl {V : Type} [Add V] (value : V) (records : List (Record V)) :
    sum_records value records
      = (records.map (fun x => x.counter_value)).foldl (fun acc x => acc + x) value := by
  induction records generalizing value with
  | nil => rfl
  | cons r rest ih => simp [sum_records, ih]

theorem report_entries_append {V : Type} (cur : Option Nat) (a b : List (Out V)) :
    report_entries cur (a ++ b) = report_entries cur a ++ report_entries (cur_gpu cur a) b := by
  induction a generalizing cur with
  | nil => simp [report_entries, cur_gpu]
  | cons t rest ih =>
    cases t <;> cases cur <;> simp [report_entries, cur_gpu, ih]

theorem cur_gpu_append {V : Type} (cur : Option Nat) (a b : List (Out V)) :
    cur_gpu cur (a ++ b) = cur_gpu (cur_gpu cur a) b := by
  induction a generalizing cur with
  | nil => simp [cur_gpu]
  | cons t rest ih =>
    cases t <;> simp [cur_gpu, ih]

/-- The loop over the metrics of one device: the calls it makes, what it writes, and how it
ends. -/
theorem metric_loop_spec {V : Type} [Zero V] [Add V] (B : Backend V) (gpu_index : Nat)
    (metrics : List String) :
    ∀ st : Loop V, ∃ new_calls new_out,
      (metric_loop B gpu_index metrics st).2.calls = st.calls ++ new_calls
      ∧ (metric_loop B gpu_index metrics st).2.stdout = st.stdout ++ new_out
      ∧ report_entries (some gpu_index) new_out = new_calls.filterMap SampleCall.entry
      ∧ cur_gpu (some gpu_index) new_out = some gpu_index
      ∧ (∀ c ∈ new_calls, c.gpu_index = gpu_index)
      ∧ ((metric_loop B gpu_index metrics st).1 = true →
          new_calls.map (fun c => c.counter) = metrics
          ∧ ∀ c ∈ new_calls, c.records ≠ none)
      ∧ ((metric_loop B gpu_index metrics st).1 = false →
          ∃ pre c, new_calls = pre ++ [c] ∧ c.records = none
            ∧ ∀ x ∈ pre, x.records ≠ none) := by
  induction metrics with
  | nil =>
    intro st
    exact ⟨[], [], by simp [metric_loop], by simp [metric_loop], rfl, rfl, by simp,
      by simp [metric_loop], by simp [metric_loop]⟩
  | cons m rest ih =>
    intro st
    simp only [metric_loop]
    cases hres : (sample_counter_values B st.cs st.world [m] st.records 10).result with
    | error e =>
      refine ⟨[⟨gpu_index, m, none⟩], [], by simp, by simp, rfl, rfl, by simp, by simp, ?_⟩
      intro _
      exact ⟨[], ⟨gpu_index, m, none⟩, by simp, rfl, by simp⟩
    | ok u =>
      simp only
      by_cases hlen : (sample_counter_values B st.cs st.world [m] st.records 10).out.length = 0
      · simp only [hlen, if_true]
        obtain ⟨nc, no, h1, h2, h3, h4, h5, h6, h7⟩ := ih
          { st with
            cs := (sample_counter_values B st.cs st.world [m] st.records 10).sampler
            world := (sample_counter_values B st.cs st.world [m] st.records 10).world
            records := (sample_counter_values B st.cs st.world [m] st.records 10).out
            calls := st.calls ++ [⟨gpu_index, m,
              some (sample_counter_values B st.cs st.world [m] st.records 10).out⟩] }
        have hnil : (sample_counter_values B st.cs st.world [m] st.records 10).out = [] :=
          List.length_eq_zero.mp hlen
        refine ⟨⟨gpu_index, m,
          some (sample_counter_values B st.cs st.world [m] st.records 10).out⟩ :: nc, no,
          ?_, h2, ?_, h4, ?_, ?_, ?_⟩
        · rw [h1]; simp
        · rw [h3]; simp [List.filterMap_cons, SampleCall.entry, hnil]
        · intro c hc
          rcases List.mem_cons.mp hc with hc | hc
          · rw [hc]
          · exact h5 c hc
        · intro ht
          obtain ⟨ha, hb⟩ := h6 ht
          refine ⟨by simp [ha], ?_⟩
          intro c hc
          rcases List.mem_cons.mp hc with hc | hc
          · rw [hc]; simp
          · exact hb c hc
        · intro hf
          obtain ⟨pre, c, ha, hb, hc⟩ := h7 hf
          refine ⟨_ :: pre, c, by rw [ha]; rfl, hb, ?_⟩
          intro x hx
          rcases List.mem_cons.mp hx with hx | hx
          · rw [hx]; simp
          · exact hc x hx
      · simp only [hlen, if_false]
        obtain ⟨r0, rs, hcons⟩ : ∃ r0 rs,
            (sample_counter_values B st.cs st.world [m] st.records 10).out = r0 :: rs :=
          List.exists_cons_of_ne_nil (fun h => hlen (by rw [h]; rfl))
        generalize hst2 : ({ st with
            cs := (sample_counter_values B st.cs st.world [m] st.records 10).sampler
            world := (sample_counter_values B st.cs st.world [m] st.records 10).world
            records := (sample_counter_values B st.cs st.world [m] st.records 10).out
            calls := st.calls ++ [⟨gpu_index, m,
              some (sample_counter_values B st.cs st.world [m] st.records 10).out⟩]
            count := (st.count + 1) % U32_MOD
            stdout := (if (st.count + 1) % U32_MOD ≠ 1 then st.stdout ++ [Out.sep]
                else st.stdout)
              ++ [Out.field m (sum_records 0
                (sample_counter_values B st.cs st.world [m] st.records 10).out)] } : Loop V)
          = st2
        obtain ⟨nc, no, h1, h2, h3, h4, h5, h6, h7⟩ := ih st2
        have hcalls : st2.calls = st.calls ++ [⟨gpu_index, m,
            some (sample_counter_values B st.cs st.world [m] st.records 10).out⟩] := by
          rw [← hst2]
        have hout : ∃ pre, st2.stdout = st.stdout ++ pre
            ∧ report_entries (some gpu_index) pre = [(gpu_index, m, sum_records 0
                (sample_counter_values B st.cs st.world [m] st.records 10).out)]
            ∧ cur_gpu (some gpu_index) pre = some gpu_index := by
          rw [← hst2]
          by_cases hcnt : (st.count + 1) % U32_MOD ≠ 1
          · exact ⟨[Out.sep, Out.field m _], by simp [hcnt], rfl, rfl⟩
          · exact ⟨[Out.field m _], by simp [hcnt], rfl, rfl⟩
        obtain ⟨pre, hp1, hp2, hp3⟩ := hout
        refine ⟨⟨gpu_index, m,
          some (sample_counter_values B st.cs st.world [m] st.records 10).out⟩ :: nc,
          pre ++ no, ?_, ?_, ?_, ?_, ?_, ?_, ?_⟩
        · rw [h1, hcalls]; simp
        · rw [h2, hp1]; simp
        · rw [report_entries_append, hp2, hp3, h3]
          simp [List.filterMap_cons, SampleCall.entry, hcons, sum_records_eq_foldl]
        · rw [cur_gpu_append, hp3, h4]
        · intro c hc
          rcases List.mem_cons.mp hc with hc | hc
          · rw [hc]
          · exact h5 c hc
        · intro ht
          obtain ⟨ha, hb⟩ := h6 ht
          refine ⟨by simp [ha], ?_⟩
          intro c hc
          rcases List.mem_cons.mp hc with hc | hc
          · rw [hc]; simp
          · exact hb c hc
        · intro hf
          obtain ⟨pre2, c, ha, hb, hc⟩ := h7 hf
          refine ⟨_ :: pre2, c, by rw [ha]; rfl, hb, ?_⟩
          intro x hx
          rcases List.mem_cons.mp hx with hx | hx
          · rw [hx]; simp
          · exact hc x hx

theorem map_key_of_gpu_index {V : Type} (gpu_index : Nat) (calls : List (SampleCall V))
    (h : ∀ c ∈ calls, c.gpu_index = gpu_index) :
    calls.map (fun c => (c.gpu_index, c.counter))
      = (calls.map (fun c => c.counter)).map (fun m => (gpu_index, m)) := by
  induction calls with
  | nil => rfl
  | cons c rest ih =>
    simp only [List.map_cons, List.cons.injEq, Prod.mk.injEq, and_true]
    exact ⟨h c (List.mem_cons_self _ _), ih (fun x hx => h x (List.mem_cons_of_mem _ hx))⟩

/-- The loop over the devices: the calls it makes, the report entries it writes, and how it
ends. -/
theorem gpu_loop_spec {V : Type} [Zero V] [Add V] (B : Backend V) (metrics : List String)
    (n_agents : Nat) (idxs : List Nat) :
    ∀ (p : Process V) (stdout : List (Out V)) (calls : List (SampleCall V)),
    ∃ new_calls,
      (gpu_loop B metrics n_agents idxs p stdout calls).calls = calls ++ new_calls
      ∧ report_entries none (gpu_loop B metrics n_agents idxs p stdout calls).stdout
        = report_entries none stdout ++ new_calls.filterMap SampleCall.entry
      ∧ (((gpu_loop B metrics n_agents idxs p stdout calls).outcome = .returned 0
          ∧ new_calls.map (fun c => (c.gpu_index, c.counter))
            = idxs.flatMap (fun i => metrics.map (fun m => (i, m)))
          ∧ ∀ c ∈ new_calls, c.records ≠ none)
        ∨ ((gpu_loop B metrics n_agents idxs p stdout calls).outcome = .returned (-1)
          ∧ ∃ pre c, new_calls = pre ++ [c] ∧ c.records = none
            ∧ ∀ x ∈ pre, x.records ≠ none)
        ∨ (∃ i, (gpu_loop B metrics n_agents idxs p stdout calls).outcome = .out_of_range i
          ∧ i ∈ idxs ∧ p.samplers_.length ≤ i ∧ ∀ c ∈ new_calls, c.records ≠ none)) := by
  induction idxs with
  | nil =>
    intro p stdout calls
    refine ⟨[], by simp [gpu_loop], ?_, Or.inl ⟨rfl, rfl, by simp⟩⟩
    simp [gpu_loop, report_entries_append, report_entries]
  | cons i rest ih =>
    intro p stdout calls
    simp only [gpu_loop]
    cases hget : p.samplers_.get? i with
    | none =>
      refine ⟨[], by simp, by simp, Or.inr (Or.inr ⟨i, rfl, List.mem_cons_self _ _,
        List.get?_eq_none.mp hget, by simp⟩)⟩
    | some cs =>
      simp only
      obtain ⟨nc, no, h1, h2, h3, h4, h5, h6, h7⟩ := metric_loop_spec B i metrics
        ⟨cs, p.world, p.records, 0, stdout ++ [Out.gpu_open i], calls⟩
      simp only at h1 h2
      have hent : ∀ tail : List (Out V),
          report_entries none (stdout ++ [Out.gpu_open i] ++ no ++ tail)
            = report_entries none stdout ++ nc.filterMap SampleCall.entry
              ++ report_entries (some i) tail := by
        intro tail
        rw [List.append_assoc, List.append_assoc, report_entries_append]
        simp only [List.singleton_append, report_entries]
        rw [report_entries_append, h3, h4, List.append_assoc]
      cases hflag : (metric_loop B i metrics
          ⟨cs, p.world, p.records, 0, stdout ++ [Out.gpu_open i], calls⟩).1 with
      | false =>
        simp only [if_true]
        refine ⟨nc, h1, ?_, Or.inr (Or.inl ⟨by first | rfl | trivial, h7 hflag⟩)⟩
        rw [h2]
        have := hent []
        simpa [report_entries] using this
      | true =>
        simp only [Bool.true_eq_false, if_false]
        obtain ⟨hnames, hsome⟩ := h6 hflag
        generalize hp1 : ({ p with
            world := (metric_loop B i metrics
              ⟨cs, p.world, p.records, 0, stdout ++ [Out.gpu_open i], calls⟩).2.world
            samplers_ := p.samplers_.set i (metric_loop B i metrics
              ⟨cs, p.world, p.records, 0, stdout ++ [Out.gpu_open i], calls⟩).2.cs
            records := (metric_loop B i metrics
              ⟨cs, p.world, p.records, 0, stdout ++ [Out.gpu_open i], calls⟩).2.records }
              : Process V) = p1
        have hlen : p1.samplers_.length = p.samplers_.length := by
          rw [← hp1]; simp
        rw [h1, h2]
        generalize hout2 : (if i + 1 ≠ n_agents then stdout ++ [Out.gpu_open i] ++ no
            ++ [Out.gpu_close] ++ [Out.comma] else stdout ++ [Out.gpu_open i] ++ no
            ++ [Out.gpu_close]) = out2
        have hout2e : report_entries none out2
            = report_entries none stdout ++ nc.filterMap SampleCall.entry := by
          rw [← hout2]
          by_cases hc : i + 1 ≠ n_agents
          · rw [if_pos hc]
            have := hent [Out.gpu_close, Out.comma]
            simpa [report_entries] using this
          · rw [if_neg hc]
            have := hent [Out.gpu_close]
            simpa [report_entries] using this
        obtain ⟨nc2, g1, g2, g3⟩ := ih p1 out2 (calls ++ nc)
        refine ⟨nc ++ nc2, ?_, ?_, ?_⟩
        · rw [g1]; simp
        · rw [g2, hout2e]; simp
        · rcases g3 with ⟨ga, gb, gc⟩ | ⟨ga, pre, c, gb, gc, gd⟩ | ⟨j, ga, gb, gc, gd⟩
          · refine Or.inl ⟨ga, ?_, ?_⟩
            · rw [List.map_append, gb, map_key_of_gpu_index i nc h5, hnames]
              simp
            · intro c hc
              rcases List.mem_append.mp hc with hc | hc
              · exact hsome c hc
              · exact gc c hc
          · refine Or.inr (Or.inl ⟨ga, nc ++ pre, c, by rw [gb]; simp, gc, ?_⟩)
            intro x hx
            rcases List.mem_append.mp hx with hx | hx
            · exact hsome x hx
            · exact gd x hx
          · refine Or.inr (Or.inr ⟨j, ga, List.mem_cons_of_mem _ gb, by rw [← hlen]; exact gc,
              ?_⟩)
            intro c hc
            rcases List.mem_append.mp hc with hc | hc
            · exact hsome c hc
            · exact gd c hc

/-- A run of `runSample`: the report entries it writes are those of its sampling calls, and
it ends in one of four ways. -/
theorem runSample_spec {V : Type} [Zero V] [Add V] (B : Backend V) (p : Process V)
    (metric_fields : List String) :
    report_entries none (runSample B p metric_fields).stdout
      = (runSample B p metric_fields).calls.filterMap SampleCall.entry
    ∧ ((∃ e, (get_available_agents B p.world).1 = .error e
          ∧ (runSample B p metric_fields).outcome = .threw e
          ∧ (runSample B p metric_fields).calls = [])
      ∨ ∃ agents, (get_available_agents B p.world).1 = .ok agents
        ∧ (((runSample B p metric_fields).outcome = .returned 0
            ∧ (runSample B p metric_fields).calls.map (fun c => (c.gpu_index, c.counter))
              = (List.range agents.length).flatMap (fun i =>
                  (if metric_fields.length = 0 then all_fields else metric_fields).map
                    (fun m => (i, m)))
            ∧ ∀ c ∈ (runSample B p metric_fields).calls, c.records ≠ none)
          ∨ ((runSample B p metric_fields).outcome = .returned (-1)
            ∧ ∃ pre c, (runSample B p metric_fields).calls = pre ++ [c] ∧ c.records = none
              ∧ ∀ x ∈ pre, x.records ≠ none)
          ∨ (∃ i, (runSample B p metric_fields).outcome = .out_of_range i
            ∧ i < agents.length ∧ p.samplers_.length ≤ i
            ∧ ∀ c ∈ (runSample B p metric_fields).calls, c.records ≠ none))) := by
  unfold runSample
  cases hag : get_available_agents B p.world with
  | mk res w1 =>
    cases res with
    | error e =>
      exact ⟨rfl, Or.inl ⟨e, rfl, rfl, rfl⟩⟩
    | ok agents =>
      simp only
      obtain ⟨nc, h1, h2, h3⟩ := gpu_loop_spec B
        (if metric_fields.length = 0 then all_fields else metric_fields) agents.length
        (List.range agents.length) { p with world := w1 } [Out.header] []
      simp only [List.nil_append] at h1
      refine ⟨?_, Or.inr ⟨agents, rfl, ?_⟩⟩
      · rw [h2, h1]; simp [report_entries]
      · rw [h1]
        rcases h3 with h3 | h3 | ⟨i, ha, hb, hc, hd⟩
        · exact Or.inl h3
        · exact Or.inr (Or.inl h3)
        · exact Or.inr (Or.inr ⟨i, ha, List.mem_range.mp hb, hc, hd⟩)

theorem entry_names_of_calls {V : Type} [Zero V] [Add V] (gpu_index : Nat)
    (calls : List (SampleCall V)) :
    ((calls.filterMap SampleCall.entry).filter (fun e => e.1 = gpu_index)).map
        (fun e => e.2.1)
      = ((calls_on gpu_index calls).filter SampleCall.has_records).map
          (fun c => c.counter) := by
  induction calls with
  | nil => rfl
  | cons c rest ih =>
    obtain ⟨g, name, recs⟩ := c
    unfold calls_on at ih ⊢
    by_cases hg : g = gpu_index
    · rcases recs with _ | _ | ⟨r, rs⟩ <;>
        simp [List.filterMap_cons, List.filter_cons, SampleCall.entry,
          SampleCall.has_records, hg, ih]
    · rcases recs with _ | _ | ⟨r, rs⟩ <;>
        simp [List.filterMap_cons, List.filter_cons, SampleCall.entry,
          SampleCall.has_records, hg, ih]

theorem pairs_filter (metrics : List String) (i : Nat) :
    ∀ n, i < n →
      ((List.range n).flatMap (fun j => metrics.map (fun m => (j, m)))).filter
          (fun e => e.1 = i)
        = metrics.map (fun m => (i, m)) := by
  have hother : ∀ j, j ≠ i →
      (metrics.map (fun m => (j, m))).filter (fun e => e.1 = i) = [] := by
    intro j hj
    simp [List.filter_eq_nil_iff, hj]
  have hself : (metrics.map (fun m => (i, m))).filter (fun e => e.1 = i)
      = metrics.map (fun m => (i, m)) := by
    simp [List.filter_eq_self]
  have hbelow : ∀ n, n ≤ i →
      ((List.range n).flatMap (fun j => metrics.map (fun m => (j, m)))).filter
          (fun e => e.1 = i) = [] := by
    intro n
    induction n with
    | zero => intro _; rfl
    | succ k ih =>
      intro hk
      rw [List.range_succ, List.flatMap_append, List.filter_append, ih (by omega)]
      simp only [List.flatMap_cons, List.flatMap_nil, List.append_nil, List.nil_append]
      exact hother k (by omega)
  intro n
  induction n with
  | zero => intro h; omega
  | succ k ih =>
    intro hk
    rw [List.range_succ, List.flatMap_append, List.filter_append]
    simp only [List.flatMap_cons, List.flatMap_nil, List.append_nil]
    by_cases hik : i = k
    · subst hik
      rw [hbelow i (Nat.le_refl _), hself]; rfl
    · rw [ih (by omega), hother k (fun h => hik h.symm)]; simp

theorem calls_on_counters {V : Type} (gpu_index : Nat) (calls : List (SampleCall V)) :
    (calls_on gpu_index calls).map (fun c => c.counter)
      = (((calls.map (fun c => (c.gpu_index, c.counter))).filter
          (fun e => e.1 = gpu_index)).map (fun e => e.2)) := by
  induction calls with
  | nil => rfl
  | cons c rest ih =>
    unfold calls_on at ih ⊢
    by_cases hg : c.gpu_index = gpu_index
    · simp [List.filter_cons, hg, ih]
    · simp [List.filter_cons, hg, ih]

/-- C6. In every run of `runSample`, a sampling call that returned a non-empty list of
records is reported with the sum of the counter values of those records, starting from `0`
and added in record order; and the report entries written are exactly the entries of the
sampling calls that returned records, in call order, each with that sum as value. -/
theorem runSample_emits_sum_of_records {V : Type} [Zero V] [Add V] (B : Backend V)
    (p : Process V) (metric_fields : List String) (c : SampleCall V)
    (records : List (Record V))
    (hc : c ∈ (runSample B p metric_fields).calls)
    (hrec : c.records = some records) (hne : records ≠ []) :
    (c.gpu_index, c.counter,
        (records.map (fun x => x.counter_value)).foldl (fun acc x => acc + x) 0)
      ∈ report_entries none (runSample B p metric_fields).stdout
    ∧ report_entries none (runSample B p metric_fields).stdout
      = (runSample B p metric_fields).calls.filterMap SampleCall.entry := by
  have heq := (runSample_spec B p metric_fields).1
  refine ⟨?_, heq⟩
  rw [heq, List.mem_filterMap]
  refine ⟨c, hc, ?_⟩
  obtain ⟨r, rs, hrs⟩ := List.exists_cons_of_ne_nil hne
  subst hrs
  simp [SampleCall.entry, hrec]

/-- C6 on the test double over the rationals: the records returned for "A" on device `0`
have the values `1.5`, `2.5` and `3.0`, and the value reported for "A" is `7`. -/
theorem runSample_emits_sum_of_records_witness :
    (⟨0, "A", some [⟨1, 1.5⟩, ⟨1, 2.5⟩, ⟨1, 3.0⟩]⟩ : SampleCall ℚ)
        ∈ (runSample demo_q (demo_process demo_q) ["A"]).calls
    ∧ (0, "A", (7 : ℚ))
        ∈ report_entries none (runSample demo_q (demo_process demo_q) ["A"]).stdout := by
  have hc : (⟨0, "A", some [⟨1, 1.5⟩, ⟨1, 2.5⟩, ⟨1, 3.0⟩]⟩ : SampleCall ℚ)
      ∈ (runSample demo_q (demo_process demo_q) ["A"]).calls := List.mem_cons_self _ _
  have h := (runSample_emits_sum_of_records demo_q (demo_process demo_q) ["A"]
    ⟨0, "A", some [⟨1, 1.5⟩, ⟨1, 2.5⟩, ⟨1, 3.0⟩]⟩ [⟨1, 1.5⟩, ⟨1, 2.5⟩, ⟨1, 3.0⟩]
    hc rfl (by simp)).1
  have hsum : (([⟨1, 1.5⟩, ⟨1, 2.5⟩, ⟨1, 3.0⟩] : List (Record ℚ)).map
      (fun x => x.counter_value)).foldl (fun acc x => acc + x) 0 = 7 := by
    norm_num [List.foldl]
  rw [hsum] at h
  exact ⟨hc, h⟩

/-- C7. In a run of `runSample` in which the devices are discovered, every discovered device
has a sampler and no sampling call throws: on every device the sampling calls are made for
the requested names (the built-in list when none is requested), in request order; and the
names of the report entries of the device are, in that order, those whose call returned at
least one record. -/
theorem report_lists_counters_with_records {V : Type} [Zero V] [Add V] (B : Backend V)
    (p : Process V) (metric_fields : List String) (agents : List Agent)
    (hag : (get_available_agents B p.world).1 = .ok agents)
    (hreg : agents.length ≤ p.samplers_.length)
    (hnofail : ∀ c ∈ (runSample B p metric_fields).calls, c.records ≠ none)
    (gpu_index : Nat) (hi : gpu_index < agents.length) :
    (calls_on gpu_index (runSample B p metric_fields).calls).map (fun c => c.counter)
      = (if metric_fields.length = 0 then all_fields else metric_fields)
    ∧ entry_names gpu_index (runSample B p metric_fields).stdout
      = ((calls_on gpu_index (runSample B p metric_fields).calls).filter
          SampleCall.has_records).map (fun c => c.counter) := by
  obtain ⟨heq, hcase⟩ := runSample_spec B p metric_fields
  refine ⟨?_, ?_⟩
  · rcases hcase with ⟨e, he, _⟩ | ⟨ag, hag2, hcase⟩
    · rw [hag] at he; cases he
    · rw [hag] at hag2
      simp only [Except.ok.injEq] at hag2
      subst hag2
      rcases hcase with ⟨_, hkeys, _⟩ | ⟨_, pre, c, hcalls, hnone, _⟩ | ⟨i, _, hlt, hge, _⟩
      · rw [calls_on_counters, hkeys, pairs_filter _ gpu_index _ hi]
        simp
      · exfalso
        exact hnofail c (by rw [hcalls]; simp) hnone
      · omega
  · unfold entry_names
    rw [heq]
    exact entry_names_of_calls gpu_index _

/-- C7 on the test double: device `0` supports "A" and "B", device `1` supports "A" only;
the request `["A", "B"]` is reported with two entries for device `0` and one for device
`1`. -/
theorem report_lists_counters_with_records_witness :
    entry_names 0 (runSample demo (demo_process demo) ["A", "B"]).stdout = ["A", "B"]
    ∧ entry_names 1 (runSample demo (demo_process demo) ["A", "B"]).stdout = ["A"] :=
  have h0 := report_lists_counters_with_records demo (demo_process demo) ["A", "B"]
    [⟨ROCPROFILER_AGENT_TYPE_GPU, 0⟩, ⟨ROCPROFILER_AGENT_TYPE_GPU, 1⟩] rfl (by decide)
    (by decide) 0 (by decide)
  have h1 := report_lists_counters_with_records demo (demo_process demo) ["A", "B"]
    [⟨ROCPROFILER_AGENT_TYPE_GPU, 0⟩, ⟨ROCPROFILER_AGENT_TYPE_GPU, 1⟩] rfl (by decide)
    (by decide) 1 (by decide)
  ⟨h0.2.trans (by decide), h1.2.trans (by decide)⟩

/-- C10, as amended. In every run of `runSample`: a sampling call that throws makes
`runSample` return `-1` and is the last sampling call of the run, no call before it having
thrown; when the devices are discovered, every discovered device has a sampler and no
sampling call throws, `runSample` returns `0`; and when the discovery of the devices throws,
the exception leaves `runSample` before any sampling call. -/
theorem runSample_aborts_on_first_failure {V : Type} [Zero V] [Add V] (B : Backend V)
    (p : Process V) (metric_fields : List String) :
    (∀ c ∈ (runSample B p metric_fields).calls, c.records = none →
      (runSample B p metric_fields).outcome = .returned (-1)
      ∧ ∃ pre, (runSample B p metric_fields).calls = pre ++ [c]
          ∧ ∀ x ∈ pre, x.records ≠ none)
    ∧ (∀ agents, (get_available_agents B p.world).1 = .ok agents →
        agents.length ≤ p.samplers_.length →
        (∀ c ∈ (runSample B p metric_fields).calls, c.records ≠ none) →
        (runSample B p metric_fields).outcome = .returned 0)
    ∧ (∀ e, (get_available_agents B p.world).1 = .error e →
        (runSample B p metric_fields).outcome = .threw e
        ∧ (runSample B p metric_fields).calls = []) := by
  obtain ⟨_, hcase⟩ := runSample_spec B p metric_fields
  refine ⟨?_, ?_, ?_⟩
  · intro c hc hnone
    rcases hcase with ⟨e, _, _, hcalls⟩ | ⟨ag, _, hcase⟩
    · rw [hcalls] at hc; simp at hc
    · rcases hcase with ⟨_, _, hsome⟩ | ⟨hout, pre, c2, hcalls, hnone2, hpre⟩ | ⟨i, _, _, _, hsome⟩
      · exact absurd hnone (hsome c hc)
      · rw [hcalls] at hc
        rcases List.mem_append.mp hc with hc | hc
        · exact absurd hnone (hpre c hc)
        · simp only [List.mem_singleton] at hc
          subst hc
          exact ⟨hout, pre, hcalls, hpre⟩
      · exact absurd hnone (hsome c hc)
  · intro agents hag hreg hnofail
    rcases hcase with ⟨e, he, _⟩ | ⟨ag, hag2, hcase⟩
    · rw [hag] at he; cases he
    · rw [hag] at hag2
      simp only [Except.ok.injEq] at hag2
      subst hag2
      rcases hcase with ⟨hout, _, _⟩ | ⟨_, pre, c, hcalls, hnone, _⟩ | ⟨i, _, hlt, hge, _⟩
      · exact hout
      · exfalso
        exact hnofail c (by rw [hcalls]; simp) hnone
      · omega
  · intro e he
    rcases hcase with ⟨e2, he2, hout, hcalls⟩ | ⟨ag, hag, _⟩
    · rw [he] at he2
      simp only [Except.error.injEq] at he2
      subst he2
      exact ⟨hout, hcalls⟩
    · rw [he] at hag; cases hag

/-- C10 as amended, on the test doubles: when profile creation fails, the first sampling call throws,
`runSample` returns `-1` and that call is the only one; when every call succeeds,
`runSample` returns `0`. -/
theorem runSample_aborts_on_first_failure_witness :
    ((runSample demo_create_fails (demo_process demo_create_fails) ["A", "B"]).outcome
        = .returned (-1)
      ∧ ∃ pre, (runSample demo_create_fails (demo_process demo_create_fails)
            ["A", "B"]).calls = pre ++ [⟨0, "A", none⟩]
          ∧ ∀ x ∈ pre, x.records ≠ none)
    ∧ (runSample demo (demo_process demo) ["A", "B"]).outcome = .returned 0 :=
  ⟨(runSample_aborts_on_first_failure demo_create_fails (demo_process demo_create_fails)
      ["A", "B"]).1 ⟨0, "A", none⟩ (by decide) rfl,
    (runSample_aborts_on_first_failure demo (demo_process demo) ["A", "B"]).2.1
      [⟨ROCPROFILER_AGENT_TYPE_GPU, 0⟩, ⟨ROCPROFILER_AGENT_TYPE_GPU, 1⟩] rfl (by decide)
      (by decide)⟩

/-- C10, the counterexample: on the test double whose agent enumeration reports an
unexpected version, with a registry that holds two samplers, the discovery of the devices
throws; `runSample` makes no sampling call, so none throws, and it does not return `0`: the
exception leaves it. -/
theorem runSample_counterexample_discovery_throws :
    (demo_process demo).samplers_.length = 2
    ∧ (get_available_agents demo_version_mismatch (demo_process demo).world).1
      = .error "unexpected rocprofiler agent version"
    ∧ (runSample demo_version_mismatch (demo_process demo) ["A"]).calls = []
    ∧ (runSample demo_version_mismatch (demo_process demo) ["A"]).outcome
      = .threw "unexpected rocprofiler agent version"
    ∧ (runSample demo_version_mismatch (demo_process demo) ["A"]).outcome ≠ .returned 0 :=
  ⟨rfl, rfl, rfl, rfl, by decide⟩

/-! ## Where the code departs from its specification -/

/-- C5, the code at a failing input: on the test double whose start, sample and stop all
return a failure status, `sample_counter_values` returns normally; the three failure
statuses are in the history of backend calls, and `out` holds the 32 value-initialised
records of the buffer, none of them written by the backend. -/
theorem sample_counter_values_ignores_window_status :
    (sample_counter_values demo_window_fails demo_sampler [] ["A"] [] 10).result = .ok ()
    ∧ (sample_counter_values demo_window_fails demo_sampler [] ["A"] [] 10).out
      = List.replicate 32 Record.zero
    ∧ (sample_counter_values demo_window_fails demo_sampler [] ["A"] [] 10).world.take 4
      = [Event.stop_context 1 1,
         Event.sample_device_counting_service 1 (List.replicate 32 Record.zero) 1 [] 32,
         Event.usleep 10,
         Event.start_context 1 (some 1) 1] :=
  ⟨rfl, rfl, rfl⟩

/-- C8, the code at a failing input: on the test double, where agent `0` supports the
counter `2` under the name "B" and agent `1` does not, the sampler of agent `0` decodes a
record of counter `2` as "B" when it is the first to decode; after the sampler of agent `1`
has decoded a record, the same call on the sampler of agent `0` throws, the reverse mapping
being the one of agent `1`. -/
theorem decode_record_name_static_is_shared :
    mapFind [("A", 1), ("B", 2)] "B" = some 2
    ∧ (get_supported_counters demo [] 0).1 = .ok [("A", 1), ("B", 2)]
    ∧ (decode_record_name demo demo_sampler none [] (⟨2, 0⟩ : Record Nat)).result = .ok "B"
    ∧ (decode_record_name demo { demo_sampler with agent_ := 1 } none []
        (⟨1, 0⟩ : Record Nat)).roc_counters = some [(1, "A")]
    ∧ (decode_record_name demo demo_sampler
        (decode_record_name demo { demo_sampler with agent_ := 1 } none []
          (⟨1, 0⟩ : Record Nat)).roc_counters
        (decode_record_name demo { demo_sampler with agent_ := 1 } none []
          (⟨1, 0⟩ : Record Nat)).world
        (⟨2, 0⟩ : Record Nat)).result
      = .error "Counter handle not found in roc_counters" :=
  ⟨rfl, rfl, rfl, rfl, rfl⟩

/-- C9, the code at a failing input: with an empty sampler registry and two discovered
devices, `runSample` indexes the registry at `0`, out of range, instead of skipping the
device. -/
theorem runSample_indexes_registry_out_of_range :
    (get_available_agents demo []).1
      = .ok [⟨ROCPROFILER_AGENT_TYPE_GPU, 0⟩, ⟨ROCPROFILER_AGENT_TYPE_GPU, 1⟩]
    ∧ (runSample demo ⟨[], [], none, []⟩ ["A"]).outcome = .out_of_range 0
    ∧ (runSample demo ⟨[], [], none, []⟩ ["A"]).calls = [] :=
  ⟨rfl, rfl, rfl⟩

/-! ## The caches of a sampler -/

theorem RocprofilerCall_error (result : Status) (msg e : String)
    (h : RocprofilerCall result msg = .error e) :
    e = msg ++ " failure" ∧ result ≠ ROCPROFILER_STATUS_SUCCESS := by
  unfold RocprofilerCall at h
  by_cases hr : result ≠ ROCPROFILER_STATUS_SUCCESS
  · rw [if_pos hr] at h
    injection h with h
    exact ⟨h.symm, hr⟩
  · rw [if_neg hr] at h
    cases h

theorem RocprofilerCall_ok (result : Status) (msg : String) (u : Unit)
    (h : RocprofilerCall result msg = .ok u) : result = ROCPROFILER_STATUS_SUCCESS := by
  unfold RocprofilerCall at h
  by_contra hne
  simp [hne] at h

theorem name_counters_error {V : Type} (B : Backend V) (w : World V) (counters : List Nat)
    (out : List (String × Nat)) (e : String)
    (h : (name_counters B w counters out).1 = .error e) :
    e = "Could not query info for counter" ++ " failure" := by
  induction counters generalizing w out with
  | nil => simp [name_counters] at h
  | cons c rest ih =>
    simp only [name_counters] at h
    split at h
    · rename_i e2 hcall
      simp only [Except.error.injEq] at h
      rw [← h]
      exact (RocprofilerCall_error _ _ _ hcall).1
    · exact ih _ _ h

theorem get_supported_counters_error {V : Type} (B : Backend V) (w : World V) (agent : Nat)
    (e : String) (h : (get_supported_counters B w agent).1 = .error e) :
    e = "Could not fetch supported counters" ++ " failure"
    ∨ e = "Could not query info for counter" ++ " failure" := by
  simp only [get_supported_counters] at h
  split at h
  · rename_i e2 hcall
    simp only [Except.error.injEq] at h
    rw [← h]
    exact Or.inl (RocprofilerCall_error _ _ _ hcall).1
  · exact Or.inr (name_counters_error B _ _ _ e h)

/-- The three ways through `sample_counter_values`: the request is cached and the call goes
on with the cached profile; the request is not cached and enumeration or profile creation
fails, the call throwing with the sampler as it was; the request is not cached, the backend
creates a profile for the resolved counters, both caches are emplaced into and the call
goes on with the profile found for the request. -/
theorem sample_counter_values_cases {V : Type} [Zero V] (B : Backend V)
    (s : CounterSampler) (w : World V) (counters : List String) (out : List (Record V))
    (duration : Nat) :
    (∃ profile, mapFind s.cached_profiles_ counters = some profile
      ∧ sample_counter_values B s w counters out duration
        = sample_cached B s w profile out duration)
    ∨ (mapFind s.cached_profiles_ counters = none
      ∧ ∃ e, (sample_counter_values B s w counters out duration).result = .error e
        ∧ (sample_counter_values B s w counters out duration).sampler = s
        ∧ (e = "Could not fetch supported counters" ++ " failure"
          ∨ e = "Could not query info for counter" ++ " failure"
          ∨ e = "Could not create profile" ++ " failure"))
    ∨ (mapFind s.cached_profiles_ counters = none
      ∧ ∃ roc_counters gpu_counters expected_size w1,
        (get_supported_counters B w s.agent_).1 = .ok roc_counters
        ∧ resolve_counters B roc_counters (get_supported_counters B w s.agent_).2
            counters [] 0 = (gpu_counters, expected_size, w1)
        ∧ (B.create_profile_config w1 s.agent_ gpu_counters).1 = ROCPROFILER_STATUS_SUCCESS
        ∧ sample_counter_values B s w counters out duration
          = sample_cached B
              { s with
                cached_profiles_ := s.cached_profiles_
                  ++ [(counters, (B.create_profile_config w1 s.agent_ gpu_counters).2)]
                profile_sizes_ := mapEmplace s.profile_sizes_
                  (B.create_profile_config w1 s.agent_ gpu_counters).2 expected_size }
              (Event.create_profile_config s.agent_ gpu_counters
                (B.create_profile_config w1 s.agent_ gpu_counters).1
                (B.create_profile_config w1 s.agent_ gpu_counters).2 :: w1)
              (B.create_profile_config w1 s.agent_ gpu_counters).2 out duration) := by
  unfold sample_counter_values
  cases hfind : mapFind s.cached_profiles_ counters with
  | some profile => exact Or.inl ⟨profile, rfl, rfl⟩
  | none =>
    simp only
    cases hsup : (get_supported_counters B w s.agent_).1 with
    | error e =>
      refine Or.inr (Or.inl ⟨trivial, e, rfl, rfl, ?_⟩)
      rcases get_supported_counters_error B w _ e hsup with h | h
      · exact Or.inl h
      · exact Or.inr (Or.inl h)
    | ok roc_counters =>
      simp only
      generalize hres : resolve_counters B roc_counters
        (get_supported_counters B w s.agent_).2 counters [] 0 = res
      cases hcall : RocprofilerCall (B.create_profile_config res.2.2 s.agent_ res.1).1
          "Could not create profile" with
      | error e =>
        exact Or.inr (Or.inl ⟨trivial, e, rfl, rfl,
          Or.inr (Or.inr (RocprofilerCall_error _ _ _ hcall).1)⟩)
      | ok u =>
        simp only
        have hfind2 : mapFind (mapEmplace s.cached_profiles_ counters
            (B.create_profile_config res.2.2 s.agent_ res.1).2) counters
            = some (B.create_profile_config res.2.2 s.agent_ res.1).2 := by
          rw [mapFind_mapEmplace_self, hfind]; rfl
        have hemp : mapEmplace s.cached_profiles_ counters
            (B.create_profile_config res.2.2 s.agent_ res.1).2
            = s.cached_profiles_
              ++ [(counters, (B.create_profile_config res.2.2 s.agent_ res.1).2)] := by
          simp [mapEmplace, hfind]
        simp only [hfind2]
        refine Or.inr (Or.inr ⟨trivial, roc_counters, res.1, res.2.1, res.2.2, rfl,
          by rw [hres], RocprofilerCall_ok _ _ u hcall, ?_⟩)
        rw [hemp]

theorem mapEmplace_prefix {K W : Type} [DecidableEq K] (m : List (K × W)) (key : K)
    (v : W) : ∃ extra, mapEmplace m key v = m ++ extra := by
  unfold mapEmplace
  cases mapFind m key with
  | some x => exact ⟨[], by simp⟩
  | none => exact ⟨[(key, v)], rfl⟩

theorem mapFind_append_of_some {K W : Type} [DecidableEq K] (m extra : List (K × W))
    (key : K) (v : W) (h : mapFind m key = some v) : mapFind (m ++ extra) key = some v := by
  rw [mapFind_append, h]; rfl

theorem mapFind_mem {K W : Type} [DecidableEq K] (m : List (K × W)) (key : K) (v : W)
    (h : mapFind m key = some v) : (key, v) ∈ m := by
  induction m with
  | nil => simp [mapFind] at h
  | cons kv rest ih =>
    obtain ⟨k, x⟩ := kv
    by_cases hk : k = key
    · simp only [mapFind, hk, if_true, Option.some.injEq] at h
      rw [hk, h]; exact List.mem_cons_self _ _
    · simp only [mapFind, hk, if_false] at h
      exact List.mem_cons_of_mem _ (ih h)

theorem sample_cached_error {V : Type} [Zero V] (B : Backend V) (s : CounterSampler)
    (w : World V) (profile : Nat) (out : List (Record V)) (duration : Nat) (e : String)
    (h : (sample_cached B s w profile out duration).result = .error e) :
    (sample_cached B s w profile out duration).sampler = s
    ∧ (sample_cached B s w profile out duration).world = w
    ∧ ((e = "Profile handle not found in profile_sizes_"
        ∧ mapFind s.profile_sizes_ profile = none)
      ∨ (e = "vector::_M_default_append"
        ∧ ∃ size, mapFind s.profile_sizes_ profile = some size
          ∧ B.record_vector_max_size < size)) := by
  unfold sample_cached at h ⊢
  cases hsz : mapFind s.profile_sizes_ profile with
  | none =>
    simp only [hsz, Except.error.injEq] at h
    exact ⟨rfl, rfl, Or.inl ⟨h.symm, rfl⟩⟩
  | some size =>
    by_cases hbig : B.record_vector_max_size < size
    · simp only [hsz, hbig, if_true, Except.error.injEq] at h
      simp only [hbig, if_true]
      exact ⟨by trivial, by trivial, Or.inr ⟨h.symm, size, by trivial, hbig⟩⟩
    · simp [hsz, hbig] at h

theorem sample_cached_ok {V : Type} [Zero V] (B : Backend V) (s : CounterSampler)
    (w : World V) (profile : Nat) (out : List (Record V)) (duration : Nat)
    (h : (sample_cached B s w profile out duration).result = .ok ()) :
    ∃ size, mapFind s.profile_sizes_ profile = some size
      ∧ (sample_cached B s w profile out duration).sampler = { s with profile_ := profile }
      ∧ last_sample_capacity (sample_cached B s w profile out duration).world = some size := by
  unfold sample_cached at h ⊢
  cases hsz : mapFind s.profile_sizes_ profile with
  | none => simp [hsz] at h
  | some size =>
    by_cases hbig : B.record_vector_max_size < size
    · simp [hsz, hbig] at h
    · simp only [hbig, if_false]
      refine ⟨size, by trivial, by trivial, ?_⟩
      simp [last_sample_capacity, resize_length]

/-- C13. A call of `sample_counter_values`, whether it returns or throws, only appends to the
profile cache and to the size cache: each cache after the call is the cache before the call
followed by what was added, and every key found before the call is found after it with the
same value. A call that misses the profile cache and whose profile creation the backend
answers with a status other than success throws and leaves both caches exactly as they
were. -/
theorem caches_are_append_only {V : Type} [Zero V] (B : Backend V) (s : CounterSampler)
    (w : World V) (counters : List String) (out : List (Record V)) (duration : Nat) :
    (∃ extra, (sample_counter_values B s w counters out duration).sampler.cached_profiles_
        = s.cached_profiles_ ++ extra)
    ∧ (∃ extra, (sample_counter_values B s w counters out duration).sampler.profile_sizes_
        = s.profile_sizes_ ++ extra)
    ∧ (∀ key profile, mapFind s.cached_profiles_ key = some profile →
        mapFind (sample_counter_values B s w counters out duration).sampler.cached_profiles_
          key = some profile)
    ∧ (∀ profile size, mapFind s.profile_sizes_ profile = some size →
        mapFind (sample_counter_values B s w counters out duration).sampler.profile_sizes_
          profile = some size)
    ∧ (∀ roc_counters, mapFind s.cached_profiles_ counters = none →
        (get_supported_counters B w s.agent_).1 = .ok roc_counters →
        (B.create_profile_config
            (resolve_counters B roc_counters (get_supported_counters B w s.agent_).2
              counters [] 0).2.2
            s.agent_
            (resolve_counters B roc_counters (get_supported_counters B w s.agent_).2
              counters [] 0).1).1 ≠ ROCPROFILER_STATUS_SUCCESS →
        (∃ e, (sample_counter_values B s w counters out duration).result = .error e)
        ∧ (sample_counter_values B s w counters out duration).sampler.cached_profiles_
          = s.cached_profiles_
        ∧ (sample_counter_values B s w counters out duration).sampler.profile_sizes_
          = s.profile_sizes_) := by
  have hpre : (∃ extra,
        (sample_counter_values B s w counters out duration).sampler.cached_profiles_
          = s.cached_profiles_ ++ extra)
      ∧ (∃ extra, (sample_counter_values B s w counters out duration).sampler.profile_sizes_
          = s.profile_sizes_ ++ extra) := by
    rcases sample_counter_values_cases B s w counters out duration with
      ⟨p, _, heq⟩ | ⟨_, e, _, hs, _⟩ | ⟨_, roc, gpu, size, w1, _, _, _, heq⟩
    · obtain ⟨h1, h2, _⟩ := sample_cached_frame B s w p out duration
      rw [heq, h1, h2]
      exact ⟨⟨[], by simp⟩, ⟨[], by simp⟩⟩
    · rw [hs]
      exact ⟨⟨[], by simp⟩, ⟨[], by simp⟩⟩
    · rw [heq]
      obtain ⟨h1, h2, _⟩ := sample_cached_frame B
        { s with
          cached_profiles_ := s.cached_profiles_
            ++ [(counters, (B.create_profile_config w1 s.agent_ gpu).2)]
          profile_sizes_ := mapEmplace s.profile_sizes_
            (B.create_profile_config w1 s.agent_ gpu).2 size }
        (Event.create_profile_config s.agent_ gpu
          (B.create_profile_config w1 s.agent_ gpu).1
          (B.create_profile_config w1 s.agent_ gpu).2 :: w1)
        (B.create_profile_config w1 s.agent_ gpu).2 out duration
      rw [h1, h2]
      exact ⟨⟨_, rfl⟩, mapEmplace_prefix _ _ _⟩
  obtain ⟨⟨x1, hx1⟩, ⟨x2, hx2⟩⟩ := hpre
  refine ⟨⟨x1, hx1⟩, ⟨x2, hx2⟩, ?_, ?_, ?_⟩
  · intro key profile h
    rw [hx1]; exact mapFind_append_of_some _ _ _ _ h
  · intro profile size h
    rw [hx2]; exact mapFind_append_of_some _ _ _ _ h
  · intro roc_counters hmiss hsup hfail
    rcases sample_counter_values_cases B s w counters out duration with
      ⟨p, hfind, _⟩ | ⟨_, e, he, hs, _⟩ | ⟨_, roc, gpu, size, w1, hsup2, hres, hst, _⟩
    · rw [hmiss] at hfind
      cases hfind
    · rw [hs]
      exact ⟨⟨e, he⟩, rfl, rfl⟩
    · exfalso
      rw [hsup] at hsup2
      simp only [Except.ok.injEq] at hsup2
      subst hsup2
      rw [hres] at hfail
      exact hfail hst

/-- C13 on the test doubles: a second request keeps the entries of the first in both
caches; a request whose profile creation fails throws and leaves both caches empty. -/
theorem caches_are_append_only_witness :
    mapFind (sample_counter_values demo
        (sample_counter_values demo demo_sampler [] ["A"] [] 10).sampler
        (sample_counter_values demo demo_sampler [] ["A"] [] 10).world
        ["B"] [] 10).sampler.cached_profiles_ ["A"] = some 1
    ∧ mapFind (sample_counter_values demo
        (sample_counter_values demo demo_sampler [] ["A"] [] 10).sampler
        (sample_counter_values demo demo_sampler [] ["A"] [] 10).world
        ["B"] [] 10).sampler.profile_sizes_ 1 = some 32
    ∧ (∃ e, (sample_counter_values demo_create_fails demo_sampler [] ["A"] [] 10).result
        = .error e)
    ∧ (sample_counter_values demo_create_fails demo_sampler [] ["A"] []
        10).sampler.cached_profiles_ = []
    ∧ (sample_counter_values demo_create_fails demo_sampler [] ["A"] []
        10).sampler.profile_sizes_ = [] :=
  have h1 := caches_are_append_only demo
    (sample_counter_values demo demo_sampler [] ["A"] [] 10).sampler
    (sample_counter_values demo demo_sampler [] ["A"] [] 10).world ["B"] [] 10
  have h2 := (caches_are_append_only demo_create_fails demo_sampler [] ["A"] [] 10).2.2.2.2
    [("A", 1), ("B", 2)] rfl rfl (by decide)
  ⟨h1.2.2.1 ["A"] 1 rfl, h1.2.2.2.1 1 32 rfl, h2.1, h2.2.1, h2.2.2⟩

/-- In every reachable state of a sampler, every profile handle stored in the profile cache
has an entry in the size cache. -/
theorem reachable_cached_has_size {V : Type} [Zero V] (B : Backend V) (agent : Nat)
    (s : CounterSampler) (w : World V) (h : Reachable B agent s w) :
    ∀ key profile, (key, profile) ∈ s.cached_profiles_ →
      ∃ size, mapFind s.profile_sizes_ profile = some size := by
  induction h with
  | construct w0 s h =>
    obtain ⟨_, _, h3, _⟩ := construct_ok B w0 agent s h
    intro key profile hmem
    rw [h3] at hmem
    cases hmem
  | other s w e _ ih => exact ih
  | sample s w counters out duration _ ih =>
    rcases sample_counter_values_cases B s w counters out duration with
      ⟨p, _, heq⟩ | ⟨_, e, _, hs, _⟩ | ⟨_, roc, gpu, size, w1, _, _, _, heq⟩
    · obtain ⟨h1, h2, _⟩ := sample_cached_frame B s w p out duration
      rw [heq, h1, h2]
      exact ih
    · rw [hs]
      exact ih
    · rw [heq]
      obtain ⟨h1, h2, _⟩ := sample_cached_frame B
        { s with
          cached_profiles_ := s.cached_profiles_
            ++ [(counters, (B.create_profile_config w1 s.agent_ gpu).2)]
          profile_sizes_ := mapEmplace s.profile_sizes_
            (B.create_profile_config w1 s.agent_ gpu).2 size }
        (Event.create_profile_config s.agent_ gpu
          (B.create_profile_config w1 s.agent_ gpu).1
          (B.create_profile_config w1 s.agent_ gpu).2 :: w1)
        (B.create_profile_config w1 s.agent_ gpu).2 out duration
      rw [h1, h2]
      intro key profile hmem
      rcases List.mem_append.mp hmem with hold | hnew
      · obtain ⟨sz, hsz⟩ := ih key profile hold
        exact ⟨sz, mapFind_mapEmplace_of_some _ _ _ _ _ hsz⟩
      · simp only [List.mem_singleton, Prod.mk.injEq] at hnew
        rw [hnew.2]
        exact ⟨_, mapFind_mapEmplace_self _ _ _⟩

/-- C12. In every state of a sampler reachable from its construction by calls of
`sample_counter_values`, returning or throwing, every profile handle stored in the profile
cache has an entry in the size cache, and no call of `sample_counter_values` made in such a
state throws the error of the look-up in `profile_sizes_`. -/
theorem size_lookup_error_unreachable {V : Type} [Zero V] (B : Backend V) (agent : Nat)
    (s : CounterSampler) (w : World V) (h : Reachable B agent s w) :
    (∀ key profile, (key, profile) ∈ s.cached_profiles_ →
      ∃ size, mapFind s.profile_sizes_ profile = some size)
    ∧ ∀ (counters : List String) (out : List (Record V)) (duration : Nat),
        (sample_counter_values B s w counters out duration).result
          ≠ .error "Profile handle not found in profile_sizes_" := by
  have hinv := reachable_cached_has_size B agent s w h
  refine ⟨hinv, ?_⟩
  intro counters out duration herr
  rcases sample_counter_values_cases B s w counters out duration with
    ⟨p, hfind, heq⟩ | ⟨_, e, he, _, hmsg⟩ | ⟨_, roc, gpu, size, w1, _, _, _, heq⟩
  · rw [heq] at herr
    obtain ⟨_, _, hcase⟩ := sample_cached_error B s w p out duration _ herr
    rcases hcase with ⟨_, hnone⟩ | ⟨htext, _⟩
    · obtain ⟨sz, hsz⟩ := hinv counters p (mapFind_mem _ _ _ hfind)
      rw [hsz] at hnone
      cases hnone
    · exact absurd htext (by decide)
  · rw [he] at herr
    simp only [Except.error.injEq] at herr
    subst herr
    rcases hmsg with hmsg | hmsg | hmsg <;> exact absurd hmsg (by decide)
  · rw [heq] at herr
    obtain ⟨_, _, hcase⟩ := sample_cached_error B _ _ _ out duration _ herr
    rcases hcase with ⟨_, hnone⟩ | ⟨htext, _⟩
    · simp only [mapFind_mapEmplace_self] at hnone
      cases hnone
    · exact absurd htext (by decide)

/-- C12 on the test double: after a request of `["A"]` the handle cached for it has its
size, and a further request does not throw the look-up error. -/
theorem size_lookup_error_unreachable_witness :
    Reachable demo 0 (sample_counter_values demo demo_sampler (construct demo [] 0).2
        ["A"] [] 10).sampler
      (sample_counter_values demo demo_sampler (construct demo [] 0).2 ["A"] [] 10).world
    ∧ (∃ size, mapFind (sample_counter_values demo demo_sampler (construct demo [] 0).2
        ["A"] [] 10).sampler.profile_sizes_ 1 = some size)
    ∧ (sample_counter_values demo
        (sample_counter_values demo demo_sampler (construct demo [] 0).2
          ["A"] [] 10).sampler
        (sample_counter_values demo demo_sampler (construct demo [] 0).2 ["A"] [] 10).world
        ["A"] [] 10).result ≠ .error "Profile handle not found in profile_sizes_" :=
  have hreach : Reachable demo 0 (sample_counter_values demo demo_sampler
        (construct demo [] 0).2 ["A"] [] 10).sampler
      (sample_counter_values demo demo_sampler (construct demo [] 0).2 ["A"] [] 10).world :=
    Reachable.sample demo_sampler _ ["A"] [] 10 (Reachable.construct [] demo_sampler rfl)
  have h := size_lookup_error_unreachable demo 0 _ _ hreach
  ⟨hreach, h.1 ["A"] 1 (List.mem_cons_self _ _), h.2 ["A"] [] 10⟩

/-! ## The expected record count of a request -/

theorem resolve_counters_expected {V : Type} (B : Backend V)
    (roc_counters : List (String × Nat)) (w : World V) (counters : List String)
    (gpu_counters : List Nat) (expected_size : Nat) :
    (resolve_counters B roc_counters w counters gpu_counters expected_size).2.1 % SIZE_MOD
        = (expected_size + expected_record_count B roc_counters w counters) % SIZE_MOD
    ∧ (expected_size < SIZE_MOD →
        (resolve_counters B roc_counters w counters gpu_counters expected_size).2.1
          < SIZE_MOD) := by
  induction counters generalizing w gpu_counters expected_size with
  | nil => simp [resolve_counters, expected_record_count, resolved_sizes]
  | cons c rest ih =>
    simp only [resolve_counters, expected_record_count, resolved_sizes]
    cases hfind : mapFind roc_counters c with
    | none =>
      simp only
      exact ih w gpu_counters expected_size
    | some id =>
      simp only [List.sum_cons]
      obtain ⟨h1, h2⟩ := ih (get_counter_size B w id).2 (gpu_counters ++ [id])
        ((expected_size + (get_counter_size B w id).1) % SIZE_MOD)
      refine ⟨?_, fun _ => h2 (Nat.mod_lt _ (by decide))⟩
      rw [h1]
      simp only [expected_record_count]
      rw [Nat.mod_add_mod, Nat.add_assoc]

/-- The expected size that the resolution loop of `sample_counter_values` computes is the
expected record count of the request in `size_t` arithmetic. -/
theorem resolve_counters_size {V : Type} (B : Backend V)
    (roc_counters : List (String × Nat)) (w : World V) (counters : List String) :
    (resolve_counters B roc_counters w counters [] 0).2.1
      = expected_record_count B roc_counters w counters % SIZE_MOD := by
  obtain ⟨h1, h2⟩ := resolve_counters_expected B roc_counters w counters [] 0
  rw [← Nat.mod_eq_of_lt (h2 (by decide)), h1, Nat.zero_add]

/-! ## The history only grows -/

theorem name_counters_suffix {V : Type} (B : Backend V) (w : World V)
    (counters : List Nat) (out : List (String × Nat)) :
    w <:+ (name_counters B w counters out).2 := by
  induction counters generalizing w out with
  | nil => exact List.suffix_refl _
  | cons c rest ih =>
    simp only [name_counters]
    split
    · exact List.suffix_cons _ _
    · exact (List.suffix_cons _ _).trans (ih _ _)

theorem get_supported_counters_suffix {V : Type} (B : Backend V) (w : World V)
    (agent : Nat) : w <:+ (get_supported_counters B w agent).2 := by
  simp only [get_supported_counters]
  split
  · exact List.suffix_cons _ _
  · exact (List.suffix_cons _ _).trans (name_counters_suffix B _ _ _)

theorem resolve_counters_suffix {V : Type} (B : Backend V)
    (roc_counters : List (String × Nat)) (w : World V) (counters : List String)
    (gpu_counters : List Nat) (expected_size : Nat) :
    w <:+ (resolve_counters B roc_counters w counters gpu_counters expected_size).2.2 := by
  induction counters generalizing w gpu_counters expected_size with
  | nil => exact List.suffix_refl _
  | cons c rest ih =>
    simp only [resolve_counters]
    split
    · exact ih _ _ _
    · exact (List.suffix_cons _ _).trans (ih _ _ _)

theorem sample_cached_suffix {V : Type} [Zero V] (B : Backend V) (s : CounterSampler)
    (w : World V) (profile : Nat) (out : List (Record V)) (duration : Nat) :
    w <:+ (sample_cached B s w profile out duration).world := by
  unfold sample_cached
  cases mapFind s.profile_sizes_ profile with
  | none => exact List.suffix_refl _
  | some size =>
    by_cases hbig : B.record_vector_max_size < size
    · simp only [hbig, if_true]
      exact List.suffix_refl _
    · simp only [hbig, if_false]
      exact (List.suffix_cons _ _).trans ((List.suffix_cons _ _).trans
        ((List.suffix_cons _ _).trans (List.suffix_cons _ _)))

theorem sample_counter_values_suffix {V : Type} [Zero V] (B : Backend V)
    (s : CounterSampler) (w : World V) (counters : List String) (out : List (Record V))
    (duration : Nat) : w <:+ (sample_counter_values B s w counters out duration).world := by
  unfold sample_counter_values
  cases mapFind s.cached_profiles_ counters with
  | some profile => exact sample_cached_suffix B s w profile out duration
  | none =>
    simp only
    have h1 := get_supported_counters_suffix B w s.agent_
    cases (get_supported_counters B w s.agent_).1 with
    | error e => exact h1
    | ok roc_counters =>
      simp only
      have h2 := h1.trans (resolve_counters_suffix B roc_counters
        (get_supported_counters B w s.agent_).2 counters [] 0)
      generalize resolve_counters B roc_counters
        (get_supported_counters B w s.agent_).2 counters [] 0 = res at h2 ⊢
      have h3 := h2.trans (List.suffix_cons (Event.create_profile_config s.agent_ res.1
        (B.create_profile_config res.2.2 s.agent_ res.1).1
        (B.create_profile_config res.2.2 s.agent_ res.1).2) res.2.2)
      cases RocprofilerCall (B.create_profile_config res.2.2 s.agent_ res.1).1
          "Could not create profile" with
      | error e => exact h3
      | ok u =>
        simp only
        split
        · exact h3.trans (sample_cached_suffix B _ _ _ out duration)
        · exact h3

/-! ## The size the output buffer is given -/

/-- A call of `sample_counter_values` that returns normally has made the profile cached for
the request the active profile and has handed the backend a buffer of the capacity that the
size cache holds for that profile. -/
theorem sample_counter_values_ok_capacity {V : Type} [Zero V] (B : Backend V)
    (s : CounterSampler) (w : World V) (counters : List String) (out : List (Record V))
    (duration : Nat)
    (hok : (sample_counter_values B s w counters out duration).result = .ok ()) :
    ∃ size,
      mapFind (sample_counter_values B s w counters out duration).sampler.cached_profiles_
        counters = some (sample_counter_values B s w counters out duration).sampler.profile_
      ∧ mapFind (sample_counter_values B s w counters out duration).sampler.profile_sizes_
        (sample_counter_values B s w counters out duration).sampler.profile_ = some size
      ∧ last_sample_capacity (sample_counter_values B s w counters out duration).world
        = some size := by
  rcases sample_counter_values_cases B s w counters out duration with
    ⟨p, hfind, heq⟩ | ⟨_, e, he, _, _⟩ | ⟨hmiss, roc, gpu, size, w1, _, _, _, heq⟩
  · rw [heq] at hok ⊢
    obtain ⟨sz, h1, h2, h3⟩ := sample_cached_ok B s w p out duration hok
    rw [h2]
    exact ⟨sz, hfind, h1, h3⟩
  · rw [he] at hok
    cases hok
  · rw [heq] at hok ⊢
    obtain ⟨sz, h1, h2, h3⟩ := sample_cached_ok B _ _ _ out duration hok
    rw [h2]
    refine ⟨sz, ?_, h1, h3⟩
    simp [mapFind_append, hmiss, mapFind]

/-- The entry that a call missing the profile cache leaves in the size cache for the handle
of the new profile, when the handle is fresh: the expected record count of the request. -/
theorem miss_emplaces_expected_size {V : Type} (B : Backend V) (s : CounterSampler)
    (w w1 : World V) (counters : List String) (roc_counters : List (String × Nat))
    (gpu_counters : List Nat) (expected_size : Nat)
    (hfresh : ∀ (w2 : World V) (a : Nat) (cs : List Nat),
      (B.create_profile_config w2 a cs).1 = ROCPROFILER_STATUS_SUCCESS →
        (B.create_profile_config w2 a cs).2 ∉ issued w2)
    (hkeys : ∀ p sz, mapFind s.profile_sizes_ p = some sz → p ∈ issued w)
    (hres : resolve_counters B roc_counters (get_supported_counters B w s.agent_).2
      counters [] 0 = (gpu_counters, expected_size, w1))
    (hi1 : issued w1 = issued w)
    (hst : (B.create_profile_config w1 s.agent_ gpu_counters).1
      = ROCPROFILER_STATUS_SUCCESS) :
    mapFind (mapEmplace s.profile_sizes_
        (B.create_profile_config w1 s.agent_ gpu_counters).2 expected_size)
        (B.create_profile_config w1 s.agent_ gpu_counters).2
      = some (expected_record_count B roc_counters (get_supported_counters B w s.agent_).2
          counters % SIZE_MOD) := by
  have hnew : mapFind s.profile_sizes_ (B.create_profile_config w1 s.agent_ gpu_counters).2
      = none := by
    cases hx : mapFind s.profile_sizes_
        (B.create_profile_config w1 s.agent_ gpu_counters).2 with
    | none => rfl
    | some sz =>
      exfalso
      have hmem := hkeys _ sz hx
      rw [← hi1] at hmem
      exact hfresh w1 s.agent_ gpu_counters hst hmem
  have hsize := resolve_counters_size B roc_counters
    (get_supported_counters B w s.agent_).2 counters
  rw [hres] at hsize
  simp only at hsize
  rw [mapFind_mapEmplace_self, hnew, ← hsize]
  rfl

/-- In every reachable state of a sampler on `agent`, under a backend that never gives out a
profile handle twice: the profile cached for a request has, in the size cache, the expected
record count of the request as computed at an earlier point of the history, and every key of
the size cache is a handle the backend has given out. -/
theorem reachable_size_inv {V : Type} [Zero V] (B : Backend V) (agent : Nat)
    (hfresh : ∀ (w1 : World V) (a : Nat) (cs : List Nat),
      (B.create_profile_config w1 a cs).1 = ROCPROFILER_STATUS_SUCCESS →
        (B.create_profile_config w1 a cs).2 ∉ issued w1)
    (s : CounterSampler) (w : World V) (h : Reachable B agent s w) :
    s.agent_ = agent
    ∧ (∀ counters p, mapFind s.cached_profiles_ counters = some p →
        ∃ w0 roc_counters, w0 <:+ w
          ∧ (get_supported_counters B w0 agent).1 = .ok roc_counters
          ∧ mapFind s.profile_sizes_ p
            = some (expected_record_count B roc_counters
                (get_supported_counters B w0 agent).2 counters % SIZE_MOD))
    ∧ (∀ p sz, mapFind s.profile_sizes_ p = some sz → p ∈ issued w) := by
  induction h with
  | construct w0 s h =>
    obtain ⟨h1, _, h3, h4⟩ := construct_ok B w0 agent s h
    refine ⟨h1, ?_, ?_⟩
    · intro c p hp; rw [h3] at hp; simp [mapFind] at hp
    · intro p sz hp; rw [h4] at hp; simp [mapFind] at hp
  | other s w e _ ih =>
    obtain ⟨h1, h2, h3⟩ := ih
    refine ⟨h1, ?_, ?_⟩
    · intro c p hp
      obtain ⟨w0, roc, hw, hsup, hsz⟩ := h2 c p hp
      exact ⟨w0, roc, hw.trans (List.suffix_cons _ _), hsup, hsz⟩
    · intro p sz hp
      have := h3 p sz hp
      rcases issued_cons e w with hi | ⟨x, hi⟩ <;> rw [hi]
      · exact this
      · exact List.mem_cons_of_mem _ this
  | sample s w counters out duration _ ih =>
    obtain ⟨h1, h2, h3⟩ := ih
    have hsuf := sample_counter_values_suffix B s w counters out duration
    obtain ⟨ha, _, hcase⟩ := sample_counter_values_frame B s w counters out duration
    refine ⟨ha.trans h1, ?_⟩
    rcases hcase with ⟨hc, hs, hi⟩ | ⟨hmiss, roc, cs, size, w1, hsup, hres, hi1, hst, hc, hs, hi⟩
    · rw [hc, hs]
      refine ⟨?_, ?_⟩
      · intro c p hp
        obtain ⟨w0, roc, hw, hsup, hsz⟩ := h2 c p hp
        exact ⟨w0, roc, hw.trans hsuf, hsup, hsz⟩
      · intro p sz hp
        have := h3 p sz hp
        rcases hi with hi | ⟨x, hi⟩ <;> rw [hi]
        · exact this
        · exact List.mem_cons_of_mem _ this
    · rw [hc, hs, hi]
      refine ⟨?_, ?_⟩
      · intro c p hp
        cases hq : mapFind s.cached_profiles_ c with
        | some q =>
          rw [mapFind_append, hq] at hp
          simp only [Option.orElse, Option.some.injEq] at hp
          subst hp
          obtain ⟨w0, roc0, hw, hsup0, hsz⟩ := h2 c q hq
          exact ⟨w0, roc0, hw.trans hsuf, hsup0, mapFind_mapEmplace_of_some _ _ _ _ _ hsz⟩
        | none =>
          rw [mapFind_append, hq] at hp
          by_cases hk : counters = c
          · subst hk
            simp only [Option.orElse, mapFind, if_true, Option.some.injEq] at hp
            subst hp
            refine ⟨w, roc, hsuf, by rw [← h1]; exact hsup, ?_⟩
            have := miss_emplaces_expected_size B s w w1 counters roc cs size hfresh h3
              hres hi1 hst
            rw [← h1]
            exact this
          · simp [Option.orElse, mapFind, hk] at hp
      · intro p sz hp
        by_cases hk : (B.create_profile_config w1 s.agent_ cs).2 = p
        · rw [← hk]; exact List.mem_cons_self _ _
        · rw [mapFind_mapEmplace_of_ne _ _ _ _ hk] at hp
          exact List.mem_cons_of_mem _ (h3 p sz hp)

/-- C11, as amended. Under a backend that never gives out a profile handle twice, in every
reachable state of a sampler: the size cache entry of the profile cached for a request is
the expected record count of the request, the sum in `size_t` arithmetic of
`get_counter_size` over the names of the request that resolve in the supported-counter
mapping, as computed at the point of the history where the request was cached; and a call of
`sample_counter_values` that returns normally has handed the backend's sample operation a
buffer of exactly that capacity, the count being computed in this call when the request was
not cached before. -/
theorem presized_to_expected_record_count {V : Type} [Zero V] (B : Backend V)
    (agent : Nat) (s : CounterSampler) (w : World V)
    (hreach : Reachable B agent s w)
    (hfresh : ∀ (w1 : World V) (a : Nat) (cs : List Nat),
      (B.create_profile_config w1 a cs).1 = ROCPROFILER_STATUS_SUCCESS →
        (B.create_profile_config w1 a cs).2 ∉ issued w1) :
    (∀ counters p, mapFind s.cached_profiles_ counters = some p →
        ∃ w0 roc_counters, w0 <:+ w
          ∧ (get_supported_counters B w0 agent).1 = .ok roc_counters
          ∧ mapFind s.profile_sizes_ p
            = some (expected_record_count B roc_counters
                (get_supported_counters B w0 agent).2 counters % SIZE_MOD))
    ∧ (∀ (counters : List String) (out : List (Record V)) (duration : Nat),
        (sample_counter_values B s w counters out duration).result = .ok () →
        ∃ w0 roc_counters, w0 <:+ w
          ∧ (mapFind s.cached_profiles_ counters = none → w0 = w)
          ∧ (get_supported_counters B w0 agent).1 = .ok roc_counters
          ∧ last_sample_capacity (sample_counter_values B s w counters out duration).world
            = some (expected_record_count B roc_counters
                (get_supported_counters B w0 agent).2 counters % SIZE_MOD)
          ∧ mapFind (sample_counter_values B s w counters out duration).sampler.profile_sizes_
              (sample_counter_values B s w counters out duration).sampler.profile_
            = some (expected_record_count B roc_counters
                (get_supported_counters B w0 agent).2 counters % SIZE_MOD)
          ∧ mapFind
              (sample_counter_values B s w counters out duration).sampler.cached_profiles_
              counters
            = some (sample_counter_values B s w counters out duration).sampler.profile_) := by
  obtain ⟨h1, h2, h3⟩ := reachable_size_inv B agent hfresh s w hreach
  refine ⟨h2, ?_⟩
  intro counters out duration hok
  obtain ⟨size, hcached, hsize, hcap⟩ :=
    sample_counter_values_ok_capacity B s w counters out duration hok
  obtain ⟨_, _, hcase⟩ := sample_counter_values_frame B s w counters out duration
  rcases hcase with ⟨hc, hs, _⟩ | ⟨hmiss, roc, cs, sz, w1, hsup, hres, hi1, hst, hc, hs, _⟩
  · have hcached2 := hcached
    have hsize2 := hsize
    rw [hc] at hcached2
    rw [hs] at hsize2
    obtain ⟨w0, roc, hw, hsup, hsz⟩ := h2 counters _ hcached2
    rw [hsz] at hsize2
    simp only [Option.some.injEq] at hsize2
    refine ⟨w0, roc, hw, ?_, hsup, ?_, ?_, hcached⟩
    · intro hnone
      rw [hnone] at hcached2
      cases hcached2
    · rw [hcap, hsize2]
    · rw [hsize, hsize2]
  · have hcached2 := hcached
    have hsize2 := hsize
    rw [hc, mapFind_append, hmiss] at hcached2
    simp only [Option.orElse, mapFind, if_true, Option.some.injEq] at hcached2
    rw [hs, ← hcached2] at hsize2
    have hexp := miss_emplaces_expected_size B s w w1 counters roc cs sz hfresh h3
      hres hi1 hst
    rw [hexp] at hsize2
    simp only [Option.some.injEq] at hsize2
    rw [h1] at hsup hsize2
    refine ⟨w, roc, List.suffix_refl _, fun _ => rfl, hsup, ?_, ?_, hcached⟩
    · rw [hcap, hsize2]
    · rw [hsize, hsize2]

/-- C11 as amended, on the test double: after a request of `["A"]`, a request of
`["A", "Z", "B", "A"]` ("Z" is not supported) is handed a buffer of capacity
`32 + 1 + 32 = 65`. -/
theorem presized_to_expected_record_count_witness :
    Reachable demo 0 (sample_counter_values demo demo_sampler (construct demo [] 0).2
        ["A"] [] 10).sampler
      (sample_counter_values demo demo_sampler (construct demo [] 0).2 ["A"] [] 10).world
    ∧ (∀ w0 : World Nat,
        expected_record_count demo [("A", 1), ("B", 2)] w0 ["A", "Z", "B", "A"] = 65)
    ∧ ∃ w0 roc_counters,
        (get_supported_counters demo w0 0).1 = .ok roc_counters
        ∧ last_sample_capacity (sample_counter_values demo
            (sample_counter_values demo demo_sampler (construct demo [] 0).2
              ["A"] [] 10).sampler
            (sample_counter_values demo demo_sampler (construct demo [] 0).2
              ["A"] [] 10).world
            ["A", "Z", "B", "A"] [] 10).world
          = some (expected_record_count demo roc_counters
              (get_supported_counters demo w0 0).2 ["A", "Z", "B", "A"] % SIZE_MOD) :=
  have hreach : Reachable demo 0 (sample_counter_values demo demo_sampler
        (construct demo [] 0).2 ["A"] [] 10).sampler
      (sample_counter_values demo demo_sampler (construct demo [] 0).2 ["A"] [] 10).world :=
    Reachable.sample demo_sampler _ ["A"] [] 10 (Reachable.construct [] demo_sampler rfl)
  have h := (presized_to_expected_record_count demo 0 _ _ hreach
    (fun w1 a cs hst => demo_fresh w1 a cs hst)).2 ["A", "Z", "B", "A"] [] 10 rfl
  ⟨hreach, fun _ => rfl,
    h.elim (fun w0 h0 => h0.elim (fun roc hr => ⟨w0, roc, hr.2.2.1, hr.2.2.2.1⟩))⟩

/-- C11, the counterexample: on the test double that answers every profile creation with
the handle `7`, a fresh sampler is asked for `["A"]` and then for `["B"]`; both calls return
normally. The expected record count of `["B"]` is `1` at every point of the history, but
the second request shares the handle of the first, the size cache keeps the `32` of `["A"]`
and the buffer handed to the sample operation for `["B"]` has capacity `32`. -/
theorem presized_counterexample_handle_reuse :
    (sample_counter_values demo_reuses_handle demo_sampler [] ["A"] [] 10).result = .ok ()
    ∧ (sample_counter_values demo_reuses_handle
        (sample_counter_values demo_reuses_handle demo_sampler [] ["A"] [] 10).sampler
        (sample_counter_values demo_reuses_handle demo_sampler [] ["A"] [] 10).world
        ["B"] [] 10).result = .ok ()
    ∧ (∀ w0 : World Nat,
        (get_supported_counters demo_reuses_handle w0 0).1 = .ok [("A", 1), ("B", 2)])
    ∧ (∀ w0 : World Nat,
        expected_record_count demo_reuses_handle [("A", 1), ("B", 2)] w0 ["B"] % SIZE_MOD = 1)
    ∧ mapFind (sample_counter_values demo_reuses_handle
        (sample_counter_values demo_reuses_handle demo_sampler [] ["A"] [] 10).sampler
        (sample_counter_values demo_reuses_handle demo_sampler [] ["A"] [] 10).world
        ["B"] [] 10).sampler.cached_profiles_ ["B"] = some 7
    ∧ mapFind (sample_counter_values demo_reuses_handle
        (sample_counter_values demo_reuses_handle demo_sampler [] ["A"] [] 10).sampler
        (sample_counter_values demo_reuses_handle demo_sampler [] ["A"] [] 10).world
        ["B"] [] 10).sampler.profile_sizes_ 7 = some 32
    ∧ last_sample_capacity (sample_counter_values demo_reuses_handle
        (sample_counter_values demo_reuses_handle demo_sampler [] ["A"] [] 10).sampler
        (sample_counter_values demo_reuses_handle demo_sampler [] ["A"] [] 10).world
        ["B"] [] 10).world = some 32
    ∧ ¬ ∃ w0 : World Nat,
        last_sample_capacity (sample_counter_values demo_reuses_handle
          (sample_counter_values demo_reuses_handle demo_sampler [] ["A"] [] 10).sampler
          (sample_counter_values demo_reuses_handle demo_sampler [] ["A"] [] 10).world
          ["B"] [] 10).world
        = some (expected_record_count demo_reuses_handle [("A", 1), ("B", 2)] w0 ["B"]
            % SIZE_MOD) :=
  ⟨rfl, rfl, fun _ => rfl, fun _ => rfl, rfl, rfl, rfl,
    fun h => h.elim (fun _ h0 =>
      absurd (show (some 32 : Option Nat) = some 1 from h0) (by decide))⟩

end Rocp
